import Mathlib

/-!
Verification development for the vehicle-snapshot translation core of
`hyundai_kia_connect_api` (file `src/hyundai_kia_connect_api/Vehicle.py`).

The embedding models the CCS2 translation pass `Vehicle.update_ccs2`
(Vehicle.py lines 427-694) over a JSON-like document type.  The repository
file ships only `Vehicle.py`; the helpers it imports (`get_child_value`,
`get_float`, `parse_datetime` from `.utils`, and the constant tables
`DISTANCE_UNITS`, `TEMPERATURE_UNITS`, `SEAT_STATUS`, `ENGINE_TYPES` from
`.const`) are not part of the sources, so those definitions are modelled
from the specification and are marked as such in their doc comments.

Python dynamic values are embedded as `JVal`; Python `None` and the path
resolver's absence marker are both `JVal.null`, exactly as in Python where
both are the object `None`.  Statements of `update_ccs2` that can raise
(`float(...)`, `int(...)`, unguarded dict lookups, the `datetime`
constructor) are modelled in the `Except String` monad.  On an error the
partially mutated vehicle object is not modelled: only whether the pass
raises, and the fully updated snapshot when it does not, are observable
here.  `datetime.datetime.now(timezone)` is modelled by passing the
ambient clock reading `nowInstant` as an explicit argument.
-/

/-- JSON-like value: the shape of the parsed status document handed to the
translation pass, and of every dynamically typed Python value the pass
stores on the snapshot.  `null` doubles as Python `None`, which is also the
path resolver's absence marker. -/
inductive JVal where
  | null
  | bool (b : Bool)
  | num (q : Rat)
  | str (s : String)
  | obj (kvs : List (String × JVal))

/-- Key lookup in an object's field list (first match wins, as in a Python
dict where keys are unique). -/
def lookupKey : List (String × JVal) → String → Option JVal
  | [], _ => none
  | (k, w) :: rest, key => if k = key then some w else lookupKey rest key

/-- Dot-splitting of a path string, accumulator holds the current segment
reversed. -/
def splitDotsAux : List Char → List Char → List String
  | [], acc => [String.mk acc.reverse]
  | c :: cs, acc =>
    if c = '.' then String.mk acc.reverse :: splitDotsAux cs []
    else splitDotsAux cs (c :: acc)

/-- Dot-splitting of a path string into its segments. -/
def splitDots (s : String) : List String := splitDotsAux s.data []

/-- Walk the document one segment at a time; if the current value is not a
traversable mapping, or the key is not present, resolution stops and the
absence marker is returned. -/
def resolveSegs : JVal → List String → JVal
  | v, [] => v
  | JVal.obj kvs, k :: rest =>
    match lookupKey kvs k with
    | some w => resolveSegs w rest
    | none => JVal.null
  | _, _ :: _ => JVal.null

/-- Modelled from the spec: the Path Resolver `get_child_value` of
`.utils` (not among the sources).  Contract (spec section 4.1):
`resolve(document, path) -> value | Absent`; the path is a dot-separated
key sequence, resolution walks the document one segment at a time and
returns the absence marker (Python `None`, here `JVal.null`) as soon as a
segment cannot be resolved; it never raises and performs no coercion. -/
def get_child_value (data : JVal) (key : String) : JVal :=
  resolveSegs data (splitDots key)

/-- Numeric view of a Python value for `==` comparisons: Python booleans
compare equal to the numbers 0 and 1. -/
def pyTruthNum : JVal → Option Rat
  | JVal.num q => some q
  | JVal.bool b => some (if b then 1 else 0)
  | _ => none

/-- Python `==` on the value shapes the pass actually compares (numbers,
booleans, strings, `None`); two mappings are never compared by the pass, so
object-object equality is conservatively `false` here. -/
def pyEq (a b : JVal) : Bool :=
  match pyTruthNum a, pyTruthNum b with
  | some x, some y => decide (x = y)
  | _, _ =>
    match a, b with
    | JVal.str s, JVal.str t => decide (s = t)
    | JVal.null, JVal.null => true
    | _, _ => false

/-- Python truthiness, as used by `bool(...)` coercions and `if`/`or`
conditions of the pass: `None` and empty containers are falsy, numbers are
truthy iff nonzero, strings iff nonempty. -/
def pyBool : JVal → Bool
  | JVal.null => false
  | JVal.bool b => b
  | JVal.num q => decide (q ≠ 0)
  | JVal.str s => decide (s ≠ "")
  | JVal.obj kvs => !kvs.isEmpty

/-- Decimal digit run to a number; fails on a non-digit. -/
def digitsToNatAux : List Char → Nat → Option Nat
  | [], acc => some acc
  | c :: cs, acc =>
    if c.isDigit then digitsToNatAux cs (acc * 10 + (c.toNat - 48)) else none

/-- Integer-literal parsing (optional sign then digits), the fragment of
Python's numeric string conversion the pass can meet; other strings fail,
as they do in Python. -/
def parseIntChars : List Char → Option Int
  | [] => none
  | '-' :: cs =>
    match cs with
    | [] => none
    | _ => (digitsToNatAux cs 0).map (fun n => -(n : Int))
  | cs => (digitsToNatAux cs 0).map (fun n => (n : Int))

/-- Python `float(value)` (Vehicle.py line 567): numbers pass through,
booleans become 0/1, integer-literal strings parse (fractional literals are
not modelled), and everything else — in particular `None`, the absence
marker — raises `TypeError`/`ValueError`. -/
def pyFloat (v : JVal) : Except String Rat :=
  match v with
  | JVal.num q => Except.ok q
  | JVal.bool b => Except.ok (if b then 1 else 0)
  | JVal.str s =>
    match parseIntChars s.data with
    | some n => Except.ok (n : Rat)
    | none => Except.error "ValueError: could not convert string to float"
  | _ => Except.error "TypeError: float() argument is null or a mapping"

/-- Truncation toward zero, Python's `int()` rounding for floats. -/
def ratTrunc (q : Rat) : Int := Int.tdiv q.num (q.den : Int)

/-- Python `int(value)` (Vehicle.py lines 679-684): numbers truncate toward
zero, booleans become 0/1, integer-literal strings parse, and everything
else — in particular `None`, the absence marker — raises. -/
def pyInt (v : JVal) : Except String Int :=
  match v with
  | JVal.num q => Except.ok (ratTrunc q)
  | JVal.bool b => Except.ok (if b then 1 else 0)
  | JVal.str s =>
    match parseIntChars s.data with
    | some n => Except.ok n
    | none => Except.error "ValueError: invalid literal for int()"
  | _ => Except.error "TypeError: int() argument is null or a mapping"

/-- Modelled from the spec: `get_float` of `.utils` (not among the
sources), the numeric conversion the odometer setter applies (Vehicle.py
line 320).  Per spec sections 4.2 and 7, the odometer reading is a single
numeric source path and absence is not an error but propagates as the
typed no-value, so the conversion is total: numbers convert, anything
non-numeric (including the absence marker) stays the no-value. -/
def get_float : JVal → JVal
  | JVal.num q => JVal.num q
  | JVal.bool b => JVal.num (if b then 1 else 0)
  | JVal.str s =>
    match parseIntChars s.data with
    | some n => JVal.num (n : Rat)
    | none => JVal.null
  | _ => JVal.null

/-- Timezone handed to the pass; only its identity matters here. -/
abbrev Tz := String

/-- Timestamps the pass stores.  `parsed raw tz` is the result of
`parse_datetime(raw, timezone)` of `.utils` (not among the sources,
modelled from the spec as a pure function of the reading and the
timezone); `nowAt i tz` is `datetime.datetime.now(timezone)` at ambient
clock reading `i`; `civil ...` is a `datetime.datetime(year, ..., second,
tzinfo=timezone)` constructor value. -/
inductive DateTime where
  | parsed (raw : JVal) (tz : Tz)
  | nowAt (instant : Nat) (tz : Tz)
  | civil (year month day hour minute second : Int) (tz : Tz)

/-- Modelled from the spec: the fixed distance-unit table `DISTANCE_UNITS`
of `.const` (not among the sources).  Index-based lookup of a
source-provided unit code; index 1 is the secondary unit, kilometers
(spec section 4.2 "unit fixed to the distance system's secondary unit
(kilometers)"); an index outside the table's domain is unguarded and
raises (spec section 7).  Python dict key comparison is `==`, hence
`pyEq`. -/
def DISTANCE_UNITS (key : JVal) : Option String :=
  if pyEq key (JVal.num 1) then some "km"
  else if pyEq key (JVal.num 3) then some "mi"
  else none

/-- Modelled from the spec: the fixed temperature-unit table
`TEMPERATURE_UNITS` of `.const` (not among the sources); the pass only
reads index 1, the fixed temperature unit of spec section 4.2. -/
def TEMPERATURE_UNITS (key : JVal) : Option String :=
  if pyEq key (JVal.num 0) then some "°F"
  else if pyEq key (JVal.num 1) then some "°C"
  else none

/-- Modelled from the spec: the fixed seat-status lookup table
`SEAT_STATUS` of `.const` (not among the sources): "source integer code
indexes a fixed lookup table of named states" (spec section 4.2).  The
table's domain is a set of small integer codes; the named states chosen
here are representative, the claims only depend on the lookup being a
fixed partial table whose lookups are unguarded, so that an out-of-domain
or absent code raises (spec sections 4.2 and 7). -/
def SEAT_STATUS (key : JVal) : Option String :=
  if pyEq key (JVal.num 0) then some "Off"
  else if pyEq key (JVal.num 1) then some "On"
  else if pyEq key (JVal.num 2) then some "Off"
  else if pyEq key (JVal.num 3) then some "Low"
  else if pyEq key (JVal.num 4) then some "Medium"
  else if pyEq key (JVal.num 5) then some "High"
  else none

namespace ENGINE_TYPES

/-- Modelled from the spec: `ENGINE_TYPES.EV` of `.const` (not among the
sources), the "pure EV" engine-type classification compared against
`self.engine_type` on Vehicle.py line 581. -/
def EV : String := "EV"

end ENGINE_TYPES

/-- Python dict subscript `table[key]`: the value when the key is in the
table's domain, otherwise a raised `KeyError` — the unguarded lookup of
spec section 7. -/
def dIndex (table : JVal → Option String) (key : JVal) : Except String String :=
  match table key with
  | some u => Except.ok u
  | none => Except.error "KeyError"

/-- Tri-state toggle decoding, the `if code in [0, 2] / elif code == 1`
pattern repeated on Vehicle.py lines 453-469 and 560-564: code 0 or 2
writes `false`, code 1 writes `true`, any other code (including the
absence marker) leaves the previous value. -/
def triStateDecode (code : JVal) (prev : Option Bool) : Option Bool :=
  if pyEq code (JVal.num 0) || pyEq code (JVal.num 2) then some false
  else if pyEq code (JVal.num 1) then some true
  else prev

/-- The snapshot: the fields of the `Vehicle` dataclass (Vehicle.py lines
69-238) that the CCS2 translation pass reads or writes, with the Python
defaults (`None` becomes `JVal.null` for dynamically typed fields and
`none` for the typed ones).  Identity fields and the trip-statistics
fields never touched by `update_ccs2` are omitted.  Composite fields keep
the underscore-prefixed backing triple (raw value, value, unit) of the
property-backed pairs. -/
structure Vehicle where
  engine_type : Option String := none
  last_updated_at : Option DateTime := none
  _total_driving_range : Option Rat := none
  _total_driving_range_value : Option Rat := none
  _total_driving_range_unit : Option String := none
  _odometer : JVal := JVal.null
  _odometer_value : JVal := JVal.null
  _odometer_unit : Option String := none
  car_battery_percentage : JVal := JVal.null
  engine_is_running : JVal := JVal.null
  smart_key_battery_warning_is_on : Option Bool := none
  washer_fluid_warning_is_on : JVal := JVal.null
  brake_fluid_warning_is_on : JVal := JVal.null
  _air_temperature : JVal := JVal.null
  _air_temperature_value : JVal := JVal.null
  _air_temperature_unit : Option String := none
  air_control_is_on : JVal := JVal.null
  defrost_is_on : Option Bool := none
  steering_wheel_heater_is_on : Option Bool := none
  back_window_heater_is_on : Option Bool := none
  front_left_seat_status : Option String := none
  front_right_seat_status : Option String := none
  rear_left_seat_status : Option String := none
  rear_right_seat_status : Option String := none
  is_locked : Option Bool := none
  front_left_door_is_open : JVal := JVal.null
  front_right_door_is_open : JVal := JVal.null
  back_left_door_is_open : JVal := JVal.null
  back_right_door_is_open : JVal := JVal.null
  trunk_is_open : JVal := JVal.null
  hood_is_open : JVal := JVal.null
  front_left_window_is_open : JVal := JVal.null
  front_right_window_is_open : JVal := JVal.null
  back_left_window_is_open : JVal := JVal.null
  back_right_window_is_open : JVal := JVal.null
  tire_pressure_all_warning_is_on : Option Bool := none
  tire_pressure_rear_left_warning_is_on : Option Bool := none
  tire_pressure_front_left_warning_is_on : Option Bool := none
  tire_pressure_front_right_warning_is_on : Option Bool := none
  tire_pressure_rear_right_warning_is_on : Option Bool := none
  _location_latitude : JVal := JVal.null
  _location_longitude : JVal := JVal.null
  _location_last_set_time : Option DateTime := none
  ev_charge_port_door_is_open : Option Bool := none
  ev_charge_limits_dc : JVal := JVal.null
  ev_charge_limits_ac : JVal := JVal.null
  ev_v2l_discharge_limit : JVal := JVal.null
  ev_battery_percentage : JVal := JVal.null
  ev_battery_soh_percentage : JVal := JVal.null
  ev_battery_remain : JVal := JVal.null
  ev_battery_capacity : JVal := JVal.null
  ev_battery_is_plugged_in : JVal := JVal.null
  _ev_driving_range : Option Rat := none
  _ev_driving_range_value : Option Rat := none
  _ev_driving_range_unit : Option String := none
  _ev_estimated_current_charge_duration : JVal := JVal.null
  _ev_estimated_current_charge_duration_value : JVal := JVal.null
  _ev_estimated_current_charge_duration_unit : Option String := none
  _ev_estimated_fast_charge_duration : JVal := JVal.null
  _ev_estimated_fast_charge_duration_value : JVal := JVal.null
  _ev_estimated_fast_charge_duration_unit : Option String := none
  _ev_estimated_portable_charge_duration : JVal := JVal.null
  _ev_estimated_portable_charge_duration_value : JVal := JVal.null
  _ev_estimated_portable_charge_duration_unit : Option String := none
  _ev_estimated_station_charge_duration : JVal := JVal.null
  _ev_estimated_station_charge_duration_value : JVal := JVal.null
  _ev_estimated_station_charge_duration_unit : Option String := none
  _ev_target_range_charge_AC : JVal := JVal.null
  _ev_target_range_charge_AC_value : JVal := JVal.null
  _ev_target_range_charge_AC_unit : Option String := none
  _ev_target_range_charge_DC : JVal := JVal.null
  _ev_target_range_charge_DC_value : JVal := JVal.null
  _ev_target_range_charge_DC_unit : Option String := none
  ev_first_departure_enabled : Option Bool := none
  ev_second_departure_enabled : Option Bool := none
  fuel_level : JVal := JVal.null
  fuel_level_is_low : JVal := JVal.null
  data : JVal := JVal.null

/-- Getter of the `total_driving_range` property (Vehicle.py line 250). -/
def Vehicle.total_driving_range (v : Vehicle) : Option Rat :=
  v._total_driving_range

/-- Getter of the `total_driving_range_unit` property (line 254). -/
def Vehicle.total_driving_range_unit (v : Vehicle) : Option String :=
  v._total_driving_range_unit

/-- Getter of the `odometer` property (line 311). -/
def Vehicle.odometer (v : Vehicle) : JVal := v._odometer

/-- Getter of the `odometer_unit` property (line 315). -/
def Vehicle.odometer_unit (v : Vehicle) : Option String := v._odometer_unit

/-- Getter of the `air_temperature` property (line 326). -/
def Vehicle.air_temperature (v : Vehicle) : JVal := v._air_temperature

/-- Getter of the `location_latitude` property (line 284). -/
def Vehicle.location_latitude (v : Vehicle) : JVal := v._location_latitude

/-- Getter of the `location_longitude` property (line 288). -/
def Vehicle.location_longitude (v : Vehicle) : JVal := v._location_longitude

/-- Getter of the `location_last_updated_at` property (line 296). -/
def Vehicle.location_last_updated_at (v : Vehicle) : Option DateTime :=
  v._location_last_set_time

/-- Setter of the `odometer` property (Vehicle.py lines 318-323): converts
the reading with `get_float` and writes raw value, value and unit from the
one tuple. -/
def Vehicle.set_odometer (v : Vehicle) (value : JVal × String) : Vehicle :=
  let float_value := get_float value.1
  { v with
    _odometer_value := float_value
    _odometer_unit := some value.2
    _odometer := float_value }

/-- Setter of the `air_temperature` property (lines 329-333). -/
def Vehicle.set_air_temperature (v : Vehicle) (value : JVal × String) :
    Vehicle :=
  { v with
    _air_temperature_value := value.1
    _air_temperature_unit := some value.2
    _air_temperature := value.1 }

/-- Setter of the `total_driving_range` property (lines 257-261); at its
only call site the value component is the result of `float(...)`. -/
def Vehicle.set_total_driving_range (v : Vehicle) (value : Rat × String) :
    Vehicle :=
  { v with
    _total_driving_range_value := some value.1
    _total_driving_range_unit := some value.2
    _total_driving_range := some value.1 }

/-- Setter of the `ev_driving_range` property (lines 343-347); at its only
call site in the pass the tuple is the already-stored total-driving-range
composite. -/
def Vehicle.set_ev_driving_range (v : Vehicle)
    (value : Option Rat × Option String) : Vehicle :=
  { v with
    _ev_driving_range_value := value.1
    _ev_driving_range_unit := value.2
    _ev_driving_range := value.1 }

/-- Setter of the `ev_estimated_current_charge_duration` property (lines
353-357). -/
def Vehicle.set_ev_estimated_current_charge_duration (v : Vehicle)
    (value : JVal × String) : Vehicle :=
  { v with
    _ev_estimated_current_charge_duration_value := value.1
    _ev_estimated_current_charge_duration_unit := some value.2
    _ev_estimated_current_charge_duration := value.1 }

/-- Setter of the `ev_estimated_fast_charge_duration` property (lines
363-367). -/
def Vehicle.set_ev_estimated_fast_charge_duration (v : Vehicle)
    (value : JVal × String) : Vehicle :=
  { v with
    _ev_estimated_fast_charge_duration_value := value.1
    _ev_estimated_fast_charge_duration_unit := some value.2
    _ev_estimated_fast_charge_duration := value.1 }

/-- Setter of the `ev_estimated_portable_charge_duration` property (lines
373-377). -/
def Vehicle.set_ev_estimated_portable_charge_duration (v : Vehicle)
    (value : JVal × String) : Vehicle :=
  { v with
    _ev_estimated_portable_charge_duration_value := value.1
    _ev_estimated_portable_charge_duration_unit := some value.2
    _ev_estimated_portable_charge_duration := value.1 }

/-- Setter of the `ev_estimated_station_charge_duration` property (lines
383-387). -/
def Vehicle.set_ev_estimated_station_charge_duration (v : Vehicle)
    (value : JVal × String) : Vehicle :=
  { v with
    _ev_estimated_station_charge_duration_value := value.1
    _ev_estimated_station_charge_duration_unit := some value.2
    _ev_estimated_station_charge_duration := value.1 }

/-- Setter of the `ev_target_range_charge_AC` property (lines 397-401). -/
def Vehicle.set_ev_target_range_charge_AC (v : Vehicle)
    (value : JVal × String) : Vehicle :=
  { v with
    _ev_target_range_charge_AC_value := value.1
    _ev_target_range_charge_AC_unit := some value.2
    _ev_target_range_charge_AC := value.1 }

/-- Setter of the `ev_target_range_charge_DC` property (lines 411-415). -/
def Vehicle.set_ev_target_range_charge_DC (v : Vehicle)
    (value : JVal × String) : Vehicle :=
  { v with
    _ev_target_range_charge_DC_value := value.1
    _ev_target_range_charge_DC_unit := some value.2
    _ev_target_range_charge_DC := value.1 }

/-- Setter of the `location` property (lines 304-308): latitude, longitude
and last-fix time are written together from the one triple. -/
def Vehicle.set_location (v : Vehicle) (value : JVal × JVal × DateTime) :
    Vehicle :=
  { v with
    _location_latitude := value.1
    _location_longitude := value.2.1
    _location_last_set_time := some value.2.2 }

/-- Gregorian leap-year rule, for the day range check of the Python
`datetime` constructor. -/
def isLeap (y : Int) : Bool :=
  (y % 4 == 0 && y % 100 != 0) || y % 400 == 0

/-- Days in a month, for the Python `datetime` constructor's range
check. -/
def daysInMonth (y mo : Int) : Int :=
  if mo = 2 then (if isLeap y then 29 else 28)
  else if mo = 4 ∨ mo = 6 ∨ mo = 9 ∨ mo = 11 then 30
  else 31

/-- The `datetime.datetime(year, month, day, hour, minute, second,
tzinfo=timezone)` constructor: raises `ValueError` when a component is out
of range, otherwise yields the civil timestamp. -/
def mkCivil (y mo d h mi s : Int) (tz : Tz) : Except String DateTime :=
  if 1 ≤ y ∧ y ≤ 9999 ∧ 1 ≤ mo ∧ mo ≤ 12 ∧ 1 ≤ d ∧ d ≤ daysInMonth y mo ∧
      0 ≤ h ∧ h ≤ 23 ∧ 0 ≤ mi ∧ mi ≤ 59 ∧ 0 ≤ s ∧ s ≤ 59 then
    Except.ok (DateTime.civil y mo d h mi s tz)
  else Except.error "ValueError: datetime component out of range"

/-- Decomposition of a present `Location.TimeStamp` sub-object (Vehicle.py
lines 678-686): each component is resolved and converted with `int(...)`
(raising on absence or a non-numeric shape), then the `datetime`
constructor combines them in the supplied timezone. -/
def locTimestamp (tz : Tz) (timestamp : JVal) : Except String DateTime := do
  let y ← pyInt (get_child_value timestamp "Year")
  let mo ← pyInt (get_child_value timestamp "Mon")
  let d ← pyInt (get_child_value timestamp "Day")
  let h ← pyInt (get_child_value timestamp "Hour")
  let mi ← pyInt (get_child_value timestamp "Min")
  let s ← pyInt (get_child_value timestamp "Sec")
  mkCivil y mo d h mi s tz

/-- The location block of the pass (Vehicle.py lines 674-692): when the
latitude reading is truthy, compute the location triple to be written —
with the fixed default timestamp 2000-01-01 midnight in the supplied
timezone when the `Location.TimeStamp` sub-object is absent — otherwise
nothing is written.  `timestamp is not None` is the Python identity test
against the resolver's absence marker. -/
def locStep (tz : Tz) (state : JVal) :
    Except String (Option (JVal × JVal × DateTime)) :=
  if pyBool (get_child_value state "Location.GeoCoord.Latitude") then do
    let t ←
      match get_child_value state "Location.TimeStamp" with
      | JVal.null => pure (DateTime.civil 2000 1 1 0 0 0 tz)
      | ts => locTimestamp tz ts
    pure (some (get_child_value state "Location.GeoCoord.Latitude",
                get_child_value state "Location.GeoCoord.Longitude", t))
  else pure none

/-- The air-temperature statement (Vehicle.py lines 445-451): when the
reading is the literal string "OFF" the composite is left untouched,
otherwise the reading and the fixed temperature unit are written through
the property setter. -/
def airTempStep (air_temp : JVal) (tempUnit : String) (v : Vehicle) :
    Vehicle :=
  if pyEq air_temp (JVal.str "OFF") then v
  else v.set_air_temperature (air_temp, tempUnit)

/-- The EV driving-range statement (Vehicle.py lines 581-586): for a pure
EV the already-stored total-driving-range composite is copied verbatim
through the property setter; otherwise nothing is written. -/
def evRangeStep (v : Vehicle) : Vehicle :=
  if v.engine_type = some ENGINE_TYPES.EV then
    v.set_ev_driving_range (v.total_driving_range, v.total_driving_range_unit)
  else v

/-- Application of the location block's outcome (Vehicle.py lines
688-692): the triple, when one was computed, goes through the `location`
property setter. -/
def locApply (loc : Option (JVal × JVal × DateTime)) (v : Vehicle) :
    Vehicle :=
  match loc with
  | some value => v.set_location value
  | none => v

/-- Statements of Vehicle.py lines 428-469: reading time (or "now" in the
given timezone), odometer, battery level, engine running, air temperature
and the three tri-state toggles, in source order. -/
def fieldsA (v : Vehicle) (nowInstant : Nat) (timezone : Tz) (state : JVal)
    (odoUnit tempUnit : String) : Vehicle :=
  let v := { v with
    last_updated_at := some (if pyBool (get_child_value state "Date") then
        DateTime.parsed (get_child_value state "Date") timezone
      else DateTime.nowAt nowInstant timezone) }
  let v := v.set_odometer (get_child_value state "Drivetrain.Odometer", odoUnit)
  let v := { v with
    car_battery_percentage := get_child_value state "Electronics.Battery.Level" }
  let v := { v with engine_is_running := get_child_value state "DrivingReady" }
  let air_temp := get_child_value state "Cabin.HVAC.Row1.Driver.Temperature.Value"
  let v := airTempStep air_temp tempUnit v
  let v := { v with
    defrost_is_on := triStateDecode
      (get_child_value state "Body.Windshield.Front.Defog.State") v.defrost_is_on }
  let v := { v with
    steering_wheel_heater_is_on := triStateDecode
      (get_child_value state "Cabin.SteeringWheel.Heat.State")
      v.steering_wheel_heater_is_on }
  let v := { v with
    back_window_heater_is_on := triStateDecode
      (get_child_value state "Body.Windshield.Rear.Defog.State")
      v.back_window_heater_is_on }
  v

/-- Statements of Vehicle.py lines 473-487: the four seat-status fields;
the unguarded lookups themselves happen in `update_ccs2`. -/
def fieldsB (v : Vehicle) (sFL sFR sRL sRR : String) : Vehicle :=
  let v := { v with front_left_seat_status := some sFL }
  let v := { v with front_right_seat_status := some sFR }
  let v := { v with rear_left_seat_status := some sRL }
  let v := { v with rear_right_seat_status := some sRR }
  v

/-- Statements of Vehicle.py lines 491-540: doors, the derived lock state
(from the four just-written door fields), hood, windows, tire-pressure
warnings and trunk, in source order. -/
def fieldsC (v : Vehicle) (state : JVal) : Vehicle :=
  let v := { v with
    front_left_door_is_open := get_child_value state "Cabin.Door.Row1.Driver.Open" }
  let v := { v with
    front_right_door_is_open := get_child_value state "Cabin.Door.Row1.Passenger.Open" }
  let v := { v with
    back_left_door_is_open := get_child_value state "Cabin.Door.Row2.Left.Open" }
  let v := { v with
    back_right_door_is_open := get_child_value state "Cabin.Door.Row2.Right.Open" }
  let v := { v with
    is_locked := some (!(pyBool v.front_left_door_is_open
      || pyBool v.front_right_door_is_open
      || pyBool v.back_left_door_is_open
      || pyBool v.back_right_door_is_open)) }
  let v := { v with hood_is_open := get_child_value state "Body.Hood.Open" }
  let v := { v with
    front_left_window_is_open := get_child_value state "Cabin.Window.Row1.Driver.Open" }
  let v := { v with
    front_right_window_is_open := get_child_value state "Cabin.Window.Row1.Passenger.Open" }
  let v := { v with
    back_left_window_is_open := get_child_value state "Cabin.Window.Row2.Left.Open" }
  let v := { v with
    back_right_window_is_open := get_child_value state "Cabin.Window.Row2.Right.Open" }
  let v := { v with
    tire_pressure_rear_left_warning_is_on :=
      some (pyBool (get_child_value state "Chassis.Axle.Row2.Left.Tire.PressureLow")) }
  let v := { v with
    tire_pressure_front_left_warning_is_on :=
      some (pyBool (get_child_value state "Chassis.Axle.Row1.Left.Tire.PressureLow")) }
  let v := { v with
    tire_pressure_front_right_warning_is_on :=
      some (pyBool (get_child_value state "Chassis.Axle.Row1.Right.Tire.PressureLow")) }
  let v := { v with
    tire_pressure_rear_right_warning_is_on :=
      some (pyBool (get_child_value state "Chassis.Axle.Row2.Right.Tire.PressureLow")) }
  let v := { v with
    tire_pressure_all_warning_is_on :=
      some (pyBool (get_child_value state "Chassis.Axle.Tire.PressureLow")) }
  let v := { v with trunk_is_open := get_child_value state "Body.Trunk.Open" }
  v

/-- Statements of Vehicle.py lines 542-564: EV battery pass-throughs, the
duplicated plugged-in writes (last one wins) and the charge-port-door
tri-state, in source order. -/
def fieldsD (v : Vehicle) (state : JVal) : Vehicle :=
  let v := { v with
    ev_battery_percentage :=
      get_child_value state "Green.BatteryManagement.BatteryRemain.Ratio" }
  let v := { v with
    ev_battery_remain :=
      get_child_value state "Green.BatteryManagement.BatteryRemain.Value" }
  let v := { v with
    ev_battery_capacity :=
      get_child_value state "Green.BatteryManagement.BatteryCapacity.Value" }
  let v := { v with
    ev_battery_soh_percentage :=
      get_child_value state "Green.BatteryManagement.SoH.Ratio" }
  let v := { v with
    ev_battery_is_plugged_in :=
      get_child_value state "Green.ChargingInformation.ElectricCurrentLevel.State" }
  let v := { v with
    ev_battery_is_plugged_in :=
      get_child_value state "Green.ChargingInformation.ConnectorFastening.State" }
  let v := { v with
    ev_charge_port_door_is_open := triStateDecode
      (get_child_value state "Green.ChargingDoor.State")
      v.ev_charge_port_door_is_open }
  v

/-- Statements of Vehicle.py lines 566-617: the total-driving-range
composite, the EV-range copy, washer fluid, the four charge-duration
composites and the charge limits, in source order. -/
def fieldsE (v : Vehicle) (state : JVal) (dteVal : Rat) (dteUnit : String) :
    Vehicle :=
  let v := v.set_total_driving_range (dteVal, dteUnit)
  let v := evRangeStep v
  let v := { v with
    washer_fluid_warning_is_on :=
      get_child_value state "Body.Windshield.Front.WasherFluid.LevelLow" }
  let v := v.set_ev_estimated_current_charge_duration
    (get_child_value state "Green.ChargingInformation.Charging.RemainTime", "m")
  let v := v.set_ev_estimated_fast_charge_duration
    (get_child_value state "Green.ChargingInformation.EstimatedTime.Standard", "m")
  let v := v.set_ev_estimated_portable_charge_duration
    (get_child_value state "Green.ChargingInformation.EstimatedTime.ICCB", "m")
  let v := v.set_ev_estimated_station_charge_duration
    (get_child_value state "Green.ChargingInformation.EstimatedTime.Quick", "m")
  let v := { v with
    ev_charge_limits_ac :=
      get_child_value state "Green.ChargingInformation.TargetSoC.Standard" }
  let v := { v with
    ev_charge_limits_dc :=
      get_child_value state "Green.ChargingInformation.TargetSoC.Quick" }
  let v := { v with
    ev_v2l_discharge_limit := get_child_value state
      "Green.Electric.SmartGrid.VehicleToLoad.DischargeLimitation.SoC" }
  v

/-- Statements of Vehicle.py lines 618-694: target-range composites,
departure-enabled flags, the second washer-fluid write, brake fluid, fuel,
blower, key-fob battery, the location triple and the raw-document
retention, in source order. -/
def fieldsF (v : Vehicle) (state : JVal) (acUnit dcUnit : String)
    (loc : Option (JVal × JVal × DateTime)) : Vehicle :=
  let v := v.set_ev_target_range_charge_AC
    (get_child_value state "Green.ChargingInformation.DTE.TargetSoC.Standard", acUnit)
  let v := v.set_ev_target_range_charge_DC
    (get_child_value state "Green.ChargingInformation.DTE.TargetSoC.Quick", dcUnit)
  let v := { v with
    ev_first_departure_enabled :=
      some (pyBool (get_child_value state "Green.Reservation.Departure.Schedule1.Enable")) }
  let v := { v with
    ev_second_departure_enabled :=
      some (pyBool (get_child_value state "Green.Reservation.Departure.Schedule2.Enable")) }
  let v := { v with
    washer_fluid_warning_is_on :=
      get_child_value state "Body.Windshield.Front.WasherFluid.LevelLow" }
  let v := { v with
    brake_fluid_warning_is_on := get_child_value state "Chassis.Brake.Fluid.Warning" }
  let v := { v with
    fuel_level := get_child_value state "Drivetrain.FuelSystem.FuelLevel" }
  let v := { v with
    fuel_level_is_low := get_child_value state "Drivetrain.FuelSystem.LowFuelWarning" }
  let v := { v with
    air_control_is_on := get_child_value state "Cabin.HVAC.Row1.Driver.Blower.SpeedLevel" }
  let v := { v with
    smart_key_battery_warning_is_on :=
      some (pyBool (get_child_value state "Electronics.FOB.LowBattery")) }
  let v := locApply loc v
  { v with data := state }

/-- The pure field-population sequence of `update_ccs2` (Vehicle.py lines
428-694): the six source blocks `fieldsA` … `fieldsF` composed in source
order.  The results of the fallible sub-expressions — the dict subscripts,
`float(...)` and the location block — are passed in as arguments
(`update_ccs2` below binds them in the `Except` monad); everything else
reads the document through the path resolver exactly as the source lines
do. -/
def applyFields (v : Vehicle) (nowInstant : Nat) (timezone : Tz)
    (state : JVal) (odoUnit tempUnit sFL sFR sRL sRR : String)
    (dteVal : Rat) (dteUnit acUnit dcUnit : String)
    (loc : Option (JVal × JVal × DateTime)) : Vehicle :=
  fieldsF (fieldsE (fieldsD (fieldsC (fieldsB
    (fieldsA v nowInstant timezone state odoUnit tempUnit)
    sFL sFR sRL sRR) state) state) state dteVal dteUnit) state acUnit dcUnit loc

/-- The CCS2 translation pass `Vehicle.update_ccs2` (Vehicle.py lines
427-694).  The fallible sub-expressions — the unguarded dict subscripts,
`float(...)` on the total-range reading and the location block — are bound
first in their source order of first evaluation; since each of them is
evaluated unconditionally by the source (the location components stay
conditional inside `locStep`), hoisting them ahead of the pure field
writes preserves exactly both the set of documents on which the pass
raises and the snapshot produced when it does not.  The partially mutated
snapshot Python would leave behind on a raise is not modelled. -/
def update_ccs2 (v : Vehicle) (nowInstant : Nat) (timezone : Tz)
    (state : JVal) : Except String Vehicle := do
  let odoUnit ← dIndex DISTANCE_UNITS (JVal.num 1)
  let tempUnit ← dIndex TEMPERATURE_UNITS (JVal.num 1)
  let sFL ← dIndex SEAT_STATUS
    (get_child_value state "Cabin.Seat.Row1.Driver.Climate.State")
  let sFR ← dIndex SEAT_STATUS
    (get_child_value state "Cabin.Seat.Row1.Passenger.Climate.State")
  let sRL ← dIndex SEAT_STATUS
    (get_child_value state "Cabin.Seat.Row2.Left.Climate.State")
  let sRR ← dIndex SEAT_STATUS
    (get_child_value state "Cabin.Seat.Row2.Right.Climate.State")
  let dteVal ← pyFloat (get_child_value state "Drivetrain.FuelSystem.DTE.Total")
  let dteUnit ← dIndex DISTANCE_UNITS
    (get_child_value state "Drivetrain.FuelSystem.DTE.Unit")
  let acUnit ← dIndex DISTANCE_UNITS
    (get_child_value state "Drivetrain.FuelSystem.DTE.Unit")
  let dcUnit ← dIndex DISTANCE_UNITS
    (get_child_value state "Drivetrain.FuelSystem.DTE.Unit")
  let loc ← locStep timezone state
  pure (applyFields v nowInstant timezone state odoUnit tempUnit
    sFL sFR sRL sRR dteVal dteUnit acUnit dcUnit loc)

/-! ## Basic computation lemmas -/

theorem except_bind_ok {α β : Type} (a : α) (f : α → Except String β) :
    (Except.ok a : Except String α) >>= f = f a := rfl

theorem except_bind_error {α β : Type} (e : String) (f : α → Except String β) :
    (Except.error e : Except String α) >>= f = Except.error e := rfl

theorem except_pure {α : Type} (a : α) :
    (pure a : Except String α) = Except.ok a := rfl

theorem DISTANCE_UNITS_one : DISTANCE_UNITS (JVal.num 1) = some "km" := rfl

theorem TEMPERATURE_UNITS_one : TEMPERATURE_UNITS (JVal.num 1) = some "°C" := rfl

/-! ## Flat forms of the pure field blocks

Each `fields*_eq` lemma restates a block of sequential field writes as a
single simultaneous record update, pushing the vehicle-level conditionals
of the source down to the affected fields.  `applyFields_eq` composes the
six blocks into the one-step description of the whole pure pass. -/

set_option maxHeartbeats 1600000

theorem fieldsA_eq (v : Vehicle) (n : Nat) (tz : Tz) (st : JVal) (oU tU : String) :
    fieldsA v n tz st oU tU = { v with
      last_updated_at := some (if pyBool (get_child_value st "Date") then
          DateTime.parsed (get_child_value st "Date") tz
        else DateTime.nowAt n tz),
      _odometer := get_float (get_child_value st "Drivetrain.Odometer"),
      _odometer_value := get_float (get_child_value st "Drivetrain.Odometer"),
      _odometer_unit := some oU,
      car_battery_percentage := get_child_value st "Electronics.Battery.Level",
      engine_is_running := get_child_value st "DrivingReady",
      _air_temperature := if pyEq (get_child_value st "Cabin.HVAC.Row1.Driver.Temperature.Value")
          (JVal.str "OFF") then v._air_temperature
        else get_child_value st "Cabin.HVAC.Row1.Driver.Temperature.Value",
      _air_temperature_value := if pyEq (get_child_value st "Cabin.HVAC.Row1.Driver.Temperature.Value")
          (JVal.str "OFF") then v._air_temperature_value
        else get_child_value st "Cabin.HVAC.Row1.Driver.Temperature.Value",
      _air_temperature_unit := if pyEq (get_child_value st "Cabin.HVAC.Row1.Driver.Temperature.Value")
          (JVal.str "OFF") then v._air_temperature_unit else some tU,
      defrost_is_on := triStateDecode
        (get_child_value st "Body.Windshield.Front.Defog.State") v.defrost_is_on,
      steering_wheel_heater_is_on := triStateDecode
        (get_child_value st "Cabin.SteeringWheel.Heat.State") v.steering_wheel_heater_is_on,
      back_window_heater_is_on := triStateDecode
        (get_child_value st "Body.Windshield.Rear.Defog.State") v.back_window_heater_is_on } := by
  unfold fieldsA airTempStep
  dsimp only
  split <;> rfl

theorem fieldsB_eq (v : Vehicle) (sFL sFR sRL sRR : String) :
    fieldsB v sFL sFR sRL sRR = { v with
      front_left_seat_status := some sFL,
      front_right_seat_status := some sFR,
      rear_left_seat_status := some sRL,
      rear_right_seat_status := some sRR } := rfl

theorem fieldsC_eq (v : Vehicle) (st : JVal) :
    fieldsC v st = { v with
      front_left_door_is_open := get_child_value st "Cabin.Door.Row1.Driver.Open",
      front_right_door_is_open := get_child_value st "Cabin.Door.Row1.Passenger.Open",
      back_left_door_is_open := get_child_value st "Cabin.Door.Row2.Left.Open",
      back_right_door_is_open := get_child_value st "Cabin.Door.Row2.Right.Open",
      is_locked := some (!(pyBool (get_child_value st "Cabin.Door.Row1.Driver.Open")
        || pyBool (get_child_value st "Cabin.Door.Row1.Passenger.Open")
        || pyBool (get_child_value st "Cabin.Door.Row2.Left.Open")
        || pyBool (get_child_value st "Cabin.Door.Row2.Right.Open"))),
      hood_is_open := get_child_value st "Body.Hood.Open",
      front_left_window_is_open := get_child_value st "Cabin.Window.Row1.Driver.Open",
      front_right_window_is_open := get_child_value st "Cabin.Window.Row1.Passenger.Open",
      back_left_window_is_open := get_child_value st "Cabin.Window.Row2.Left.Open",
      back_right_window_is_open := get_child_value st "Cabin.Window.Row2.Right.Open",
      tire_pressure_rear_left_warning_is_on :=
        some (pyBool (get_child_value st "Chassis.Axle.Row2.Left.Tire.PressureLow")),
      tire_pressure_front_left_warning_is_on :=
        some (pyBool (get_child_value st "Chassis.Axle.Row1.Left.Tire.PressureLow")),
      tire_pressure_front_right_warning_is_on :=
        some (pyBool (get_child_value st "Chassis.Axle.Row1.Right.Tire.PressureLow")),
      tire_pressure_rear_right_warning_is_on :=
        some (pyBool (get_child_value st "Chassis.Axle.Row2.Right.Tire.PressureLow")),
      tire_pressure_all_warning_is_on :=
        some (pyBool (get_child_value st "Chassis.Axle.Tire.PressureLow")),
      trunk_is_open := get_child_value st "Body.Trunk.Open" } := rfl

theorem fieldsD_eq (v : Vehicle) (st : JVal) :
    fieldsD v st = { v with
      ev_battery_percentage :=
        get_child_value st "Green.BatteryManagement.BatteryRemain.Ratio",
      ev_battery_remain :=
        get_child_value st "Green.BatteryManagement.BatteryRemain.Value",
      ev_battery_capacity :=
        get_child_value st "Green.BatteryManagement.BatteryCapacity.Value",
      ev_battery_soh_percentage :=
        get_child_value st "Green.BatteryManagement.SoH.Ratio",
      ev_battery_is_plugged_in :=
        get_child_value st "Green.ChargingInformation.ConnectorFastening.State",
      ev_charge_port_door_is_open := triStateDecode
        (get_child_value st "Green.ChargingDoor.State") v.ev_charge_port_door_is_open } := rfl

theorem evRangeStep_eq (v : Vehicle) :
    evRangeStep v = { v with
      _ev_driving_range := if v.engine_type = some ENGINE_TYPES.EV
        then v._total_driving_range else v._ev_driving_range,
      _ev_driving_range_value := if v.engine_type = some ENGINE_TYPES.EV
        then v._total_driving_range else v._ev_driving_range_value,
      _ev_driving_range_unit := if v.engine_type = some ENGINE_TYPES.EV
        then v._total_driving_range_unit else v._ev_driving_range_unit } := by
  unfold evRangeStep
  dsimp only [Vehicle.total_driving_range, Vehicle.total_driving_range_unit]
  split <;> rfl

theorem fieldsE_eq (v : Vehicle) (st : JVal) (q : Rat) (dU : String) :
    fieldsE v st q dU = { v with
      _total_driving_range := some q,
      _total_driving_range_value := some q,
      _total_driving_range_unit := some dU,
      _ev_driving_range := if v.engine_type = some ENGINE_TYPES.EV then some q
        else v._ev_driving_range,
      _ev_driving_range_value := if v.engine_type = some ENGINE_TYPES.EV then some q
        else v._ev_driving_range_value,
      _ev_driving_range_unit := if v.engine_type = some ENGINE_TYPES.EV then some dU
        else v._ev_driving_range_unit,
      washer_fluid_warning_is_on :=
        get_child_value st "Body.Windshield.Front.WasherFluid.LevelLow",
      _ev_estimated_current_charge_duration :=
        get_child_value st "Green.ChargingInformation.Charging.RemainTime",
      _ev_estimated_current_charge_duration_value :=
        get_child_value st "Green.ChargingInformation.Charging.RemainTime",
      _ev_estimated_current_charge_duration_unit := some "m",
      _ev_estimated_fast_charge_duration :=
        get_child_value st "Green.ChargingInformation.EstimatedTime.Standard",
      _ev_estimated_fast_charge_duration_value :=
        get_child_value st "Green.ChargingInformation.EstimatedTime.Standard",
      _ev_estimated_fast_charge_duration_unit := some "m",
      _ev_estimated_portable_charge_duration :=
        get_child_value st "Green.ChargingInformation.EstimatedTime.ICCB",
      _ev_estimated_portable_charge_duration_value :=
        get_child_value st "Green.ChargingInformation.EstimatedTime.ICCB",
      _ev_estimated_portable_charge_duration_unit := some "m",
      _ev_estimated_station_charge_duration :=
        get_child_value st "Green.ChargingInformation.EstimatedTime.Quick",
      _ev_estimated_station_charge_duration_value :=
        get_child_value st "Green.ChargingInformation.EstimatedTime.Quick",
      _ev_estimated_station_charge_duration_unit := some "m",
      ev_charge_limits_ac :=
        get_child_value st "Green.ChargingInformation.TargetSoC.Standard",
      ev_charge_limits_dc :=
        get_child_value st "Green.ChargingInformation.TargetSoC.Quick",
      ev_v2l_discharge_limit := get_child_value st
        "Green.Electric.SmartGrid.VehicleToLoad.DischargeLimitation.SoC" } := by
  unfold fieldsE
  dsimp only
  rw [evRangeStep_eq]
  rfl

theorem fieldsF_eq (v : Vehicle) (st : JVal) (aU dU2 : String)
    (loc : Option (JVal × JVal × DateTime)) :
    fieldsF v st aU dU2 loc = { v with
      _ev_target_range_charge_AC :=
        get_child_value st "Green.ChargingInformation.DTE.TargetSoC.Standard",
      _ev_target_range_charge_AC_value :=
        get_child_value st "Green.ChargingInformation.DTE.TargetSoC.Standard",
      _ev_target_range_charge_AC_unit := some aU,
      _ev_target_range_charge_DC :=
        get_child_value st "Green.ChargingInformation.DTE.TargetSoC.Quick",
      _ev_target_range_charge_DC_value :=
        get_child_value st "Green.ChargingInformation.DTE.TargetSoC.Quick",
      _ev_target_range_charge_DC_unit := some dU2,
      ev_first_departure_enabled :=
        some (pyBool (get_child_value st "Green.Reservation.Departure.Schedule1.Enable")),
      ev_second_departure_enabled :=
        some (pyBool (get_child_value st "Green.Reservation.Departure.Schedule2.Enable")),
      washer_fluid_warning_is_on :=
        get_child_value st "Body.Windshield.Front.WasherFluid.LevelLow",
      brake_fluid_warning_is_on := get_child_value st "Chassis.Brake.Fluid.Warning",
      fuel_level := get_child_value st "Drivetrain.FuelSystem.FuelLevel",
      fuel_level_is_low := get_child_value st "Drivetrain.FuelSystem.LowFuelWarning",
      air_control_is_on := get_child_value st "Cabin.HVAC.Row1.Driver.Blower.SpeedLevel",
      smart_key_battery_warning_is_on :=
        some (pyBool (get_child_value st "Electronics.FOB.LowBattery")),
      _location_latitude := match loc with
        | some l => l.1
        | none => v._location_latitude,
      _location_longitude := match loc with
        | some l => l.2.1
        | none => v._location_longitude,
      _location_last_set_time := match loc with
        | some l => some l.2.2
        | none => v._location_last_set_time,
      data := st } := by
  rcases loc with _ | ⟨la, lo, t⟩ <;> rfl

theorem applyFields_eq (v : Vehicle) (n : Nat) (tz : Tz) (st : JVal)
    (oU tU sFL sFR sRL sRR : String) (q : Rat) (dU aU dU2 : String)
    (loc : Option (JVal × JVal × DateTime)) :
    applyFields v n tz st oU tU sFL sFR sRL sRR q dU aU dU2 loc = { v with
      last_updated_at := some (if pyBool (get_child_value st "Date") then
          DateTime.parsed (get_child_value st "Date") tz
        else DateTime.nowAt n tz),
      _odometer := get_float (get_child_value st "Drivetrain.Odometer"),
      _odometer_value := get_float (get_child_value st "Drivetrain.Odometer"),
      _odometer_unit := some oU,
      car_battery_percentage := get_child_value st "Electronics.Battery.Level",
      engine_is_running := get_child_value st "DrivingReady",
      _air_temperature := if pyEq (get_child_value st "Cabin.HVAC.Row1.Driver.Temperature.Value")
          (JVal.str "OFF") then v._air_temperature
        else get_child_value st "Cabin.HVAC.Row1.Driver.Temperature.Value",
      _air_temperature_value := if pyEq (get_child_value st "Cabin.HVAC.Row1.Driver.Temperature.Value")
          (JVal.str "OFF") then v._air_temperature_value
        else get_child_value st "Cabin.HVAC.Row1.Driver.Temperature.Value",
      _air_temperature_unit := if pyEq (get_child_value st "Cabin.HVAC.Row1.Driver.Temperature.Value")
          (JVal.str "OFF") then v._air_temperature_unit else some tU,
      defrost_is_on := triStateDecode
        (get_child_value st "Body.Windshield.Front.Defog.State") v.defrost_is_on,
      steering_wheel_heater_is_on := triStateDecode
        (get_child_value st "Cabin.SteeringWheel.Heat.State") v.steering_wheel_heater_is_on,
      back_window_heater_is_on := triStateDecode
        (get_child_value st "Body.Windshield.Rear.Defog.State") v.back_window_heater_is_on,
      front_left_seat_status := some sFL,
      front_right_seat_status := some sFR,
      rear_left_seat_status := some sRL,
      rear_right_seat_status := some sRR,
      front_left_door_is_open := get_child_value st "Cabin.Door.Row1.Driver.Open",
      front_right_door_is_open := get_child_value st "Cabin.Door.Row1.Passenger.Open",
      back_left_door_is_open := get_child_value st "Cabin.Door.Row2.Left.Open",
      back_right_door_is_open := get_child_value st "Cabin.Door.Row2.Right.Open",
      is_locked := some (!(pyBool (get_child_value st "Cabin.Door.Row1.Driver.Open")
        || pyBool (get_child_value st "Cabin.Door.Row1.Passenger.Open")
        || pyBool (get_child_value st "Cabin.Door.Row2.Left.Open")
        || pyBool (get_child_value st "Cabin.Door.Row2.Right.Open"))),
      hood_is_open := get_child_value st "Body.Hood.Open",
      front_left_window_is_open := get_child_value st "Cabin.Window.Row1.Driver.Open",
      front_right_window_is_open := get_child_value st "Cabin.Window.Row1.Passenger.Open",
      back_left_window_is_open := get_child_value st "Cabin.Window.Row2.Left.Open",
      back_right_window_is_open := get_child_value st "Cabin.Window.Row2.Right.Open",
      tire_pressure_rear_left_warning_is_on :=
        some (pyBool (get_child_value st "Chassis.Axle.Row2.Left.Tire.PressureLow")),
      tire_pressure_front_left_warning_is_on :=
        some (pyBool (get_child_value st "Chassis.Axle.Row1.Left.Tire.PressureLow")),
      tire_pressure_front_right_warning_is_on :=
        some (pyBool (get_child_value st "Chassis.Axle.Row1.Right.Tire.PressureLow")),
      tire_pressure_rear_right_warning_is_on :=
        some (pyBool (get_child_value st "Chassis.Axle.Row2.Right.Tire.PressureLow")),
      tire_pressure_all_warning_is_on :=
        some (pyBool (get_child_value st "Chassis.Axle.Tire.PressureLow")),
      trunk_is_open := get_child_value st "Body.Trunk.Open",
      ev_battery_percentage :=
        get_child_value st "Green.BatteryManagement.BatteryRemain.Ratio",
      ev_battery_remain :=
        get_child_value st "Green.BatteryManagement.BatteryRemain.Value",
      ev_battery_capacity :=
        get_child_value st "Green.BatteryManagement.BatteryCapacity.Value",
      ev_battery_soh_percentage :=
        get_child_value st "Green.BatteryManagement.SoH.Ratio",
      ev_battery_is_plugged_in :=
        get_child_value st "Green.ChargingInformation.ConnectorFastening.State",
      ev_charge_port_door_is_open := triStateDecode
        (get_child_value st "Green.ChargingDoor.State") v.ev_charge_port_door_is_open,
      _total_driving_range := some q,
      _total_driving_range_value := some q,
      _total_driving_range_unit := some dU,
      _ev_driving_range := if v.engine_type = some ENGINE_TYPES.EV then some q
        else v._ev_driving_range,
      _ev_driving_range_value := if v.engine_type = some ENGINE_TYPES.EV then some q
        else v._ev_driving_range_value,
      _ev_driving_range_unit := if v.engine_type = some ENGINE_TYPES.EV then some dU
        else v._ev_driving_range_unit,
      _ev_estimated_current_charge_duration :=
        get_child_value st "Green.ChargingInformation.Charging.RemainTime",
      _ev_estimated_current_charge_duration_value :=
        get_child_value st "Green.ChargingInformation.Charging.RemainTime",
      _ev_estimated_current_charge_duration_unit := some "m",
      _ev_estimated_fast_charge_duration :=
        get_child_value st "Green.ChargingInformation.EstimatedTime.Standard",
      _ev_estimated_fast_charge_duration_value :=
        get_child_value st "Green.ChargingInformation.EstimatedTime.Standard",
      _ev_estimated_fast_charge_duration_unit := some "m",
      _ev_estimated_portable_charge_duration :=
        get_child_value st "Green.ChargingInformation.EstimatedTime.ICCB",
      _ev_estimated_portable_charge_duration_value :=
        get_child_value st "Green.ChargingInformation.EstimatedTime.ICCB",
      _ev_estimated_portable_charge_duration_unit := some "m",
      _ev_estimated_station_charge_duration :=
        get_child_value st "Green.ChargingInformation.EstimatedTime.Quick",
      _ev_estimated_station_charge_duration_value :=
        get_child_value st "Green.ChargingInformation.EstimatedTime.Quick",
      _ev_estimated_station_charge_duration_unit := some "m",
      ev_charge_limits_ac :=
        get_child_value st "Green.ChargingInformation.TargetSoC.Standard",
      ev_charge_limits_dc :=
        get_child_value st "Green.ChargingInformation.TargetSoC.Quick",
      ev_v2l_discharge_limit := get_child_value st
        "Green.Electric.SmartGrid.VehicleToLoad.DischargeLimitation.SoC",
      _ev_target_range_charge_AC :=
        get_child_value st "Green.ChargingInformation.DTE.TargetSoC.Standard",
      _ev_target_range_charge_AC_value :=
        get_child_value st "Green.ChargingInformation.DTE.TargetSoC.Standard",
      _ev_target_range_charge_AC_unit := some aU,
      _ev_target_range_charge_DC :=
        get_child_value st "Green.ChargingInformation.DTE.TargetSoC.Quick",
      _ev_target_range_charge_DC_value :=
        get_child_value st "Green.ChargingInformation.DTE.TargetSoC.Quick",
      _ev_target_range_charge_DC_unit := some dU2,
      ev_first_departure_enabled :=
        some (pyBool (get_child_value st "Green.Reservation.Departure.Schedule1.Enable")),
      ev_second_departure_enabled :=
        some (pyBool (get_child_value st "Green.Reservation.Departure.Schedule2.Enable")),
      washer_fluid_warning_is_on :=
        get_child_value st "Body.Windshield.Front.WasherFluid.LevelLow",
      brake_fluid_warning_is_on := get_child_value st "Chassis.Brake.Fluid.Warning",
      fuel_level := get_child_value st "Drivetrain.FuelSystem.FuelLevel",
      fuel_level_is_low := get_child_value st "Drivetrain.FuelSystem.LowFuelWarning",
      air_control_is_on := get_child_value st "Cabin.HVAC.Row1.Driver.Blower.SpeedLevel",
      smart_key_battery_warning_is_on :=
        some (pyBool (get_child_value st "Electronics.FOB.LowBattery")),
      _location_latitude := match loc with
        | some l => l.1
        | none => v._location_latitude,
      _location_longitude := match loc with
        | some l => l.2.1
        | none => v._location_longitude,
      _location_last_set_time := match loc with
        | some l => some l.2.2
        | none => v._location_last_set_time,
      data := st } := by
  rw [applyFields, fieldsA_eq, fieldsB_eq, fieldsC_eq, fieldsD_eq, fieldsE_eq, fieldsF_eq]

/-- Success inversion for the pass: `update_ccs2` returns a snapshot
exactly when the four seat lookups, the total-range float conversion, the
distance-unit lookup and the location block all succeed, and then the
snapshot is the pure field population with those results. -/
theorem update_ccs2_ok_iff (v : Vehicle) (n : Nat) (tz : Tz) (st : JVal) (w : Vehicle) :
    update_ccs2 v n tz st = Except.ok w ↔
    ∃ (sFL sFR sRL sRR : String) (dteVal : Rat) (dteUnit : String)
      (loc : Option (JVal × JVal × DateTime)),
      SEAT_STATUS (get_child_value st "Cabin.Seat.Row1.Driver.Climate.State") = some sFL ∧
      SEAT_STATUS (get_child_value st "Cabin.Seat.Row1.Passenger.Climate.State") = some sFR ∧
      SEAT_STATUS (get_child_value st "Cabin.Seat.Row2.Left.Climate.State") = some sRL ∧
      SEAT_STATUS (get_child_value st "Cabin.Seat.Row2.Right.Climate.State") = some sRR ∧
      pyFloat (get_child_value st "Drivetrain.FuelSystem.DTE.Total") = Except.ok dteVal ∧
      DISTANCE_UNITS (get_child_value st "Drivetrain.FuelSystem.DTE.Unit") = some dteUnit ∧
      locStep tz st = Except.ok loc ∧
      w = applyFields v n tz st "km" "°C" sFL sFR sRL sRR dteVal dteUnit dteUnit dteUnit loc := by
  constructor
  · intro h
    unfold update_ccs2 at h
    simp only [dIndex, DISTANCE_UNITS_one, TEMPERATURE_UNITS_one, except_bind_ok] at h
    rcases hFL : SEAT_STATUS (get_child_value st "Cabin.Seat.Row1.Driver.Climate.State")
        with _ | sFL <;>
      simp only [hFL, except_bind_ok, except_bind_error] at h <;>
      try exact Except.noConfusion h
    rcases hFR : SEAT_STATUS (get_child_value st "Cabin.Seat.Row1.Passenger.Climate.State")
        with _ | sFR <;>
      simp only [hFR, except_bind_ok, except_bind_error] at h <;>
      try exact Except.noConfusion h
    rcases hRL : SEAT_STATUS (get_child_value st "Cabin.Seat.Row2.Left.Climate.State")
        with _ | sRL <;>
      simp only [hRL, except_bind_ok, except_bind_error] at h <;>
      try exact Except.noConfusion h
    rcases hRR : SEAT_STATUS (get_child_value st "Cabin.Seat.Row2.Right.Climate.State")
        with _ | sRR <;>
      simp only [hRR, except_bind_ok, except_bind_error] at h <;>
      try exact Except.noConfusion h
    rcases hq : pyFloat (get_child_value st "Drivetrain.FuelSystem.DTE.Total")
        with e | dteVal <;>
      simp only [hq, except_bind_ok, except_bind_error] at h <;>
      try exact Except.noConfusion h
    rcases hu : DISTANCE_UNITS (get_child_value st "Drivetrain.FuelSystem.DTE.Unit")
        with _ | dteUnit <;>
      simp only [hu, except_bind_ok, except_bind_error] at h <;>
      try exact Except.noConfusion h
    rcases hloc : locStep tz st with e | loc <;>
      simp only [hloc, except_bind_ok, except_bind_error, except_pure] at h <;>
      try exact Except.noConfusion h
    injection h with h
    exact ⟨sFL, sFR, sRL, sRR, dteVal, dteUnit, loc,
      rfl, rfl, rfl, rfl, rfl, rfl, rfl, h.symm⟩
  · rintro ⟨sFL, sFR, sRL, sRR, dteVal, dteUnit, loc,
      hFL, hFR, hRL, hRR, hq, hu, hloc, rfl⟩
    unfold update_ccs2
    simp only [dIndex, DISTANCE_UNITS_one, TEMPERATURE_UNITS_one, hFL, hFR, hRL, hRR,
      hq, hu, hloc, except_bind_ok, except_pure]

/-- Success inversion for the location block: on success either the
latitude reading was falsy and nothing is to be written, or it was truthy
and the triple carries the latitude and longitude readings together with a
timestamp that is the fixed 2000-01-01 default whenever the timestamp
sub-object is absent. -/
theorem locStep_ok_inv (tz : Tz) (st : JVal) (loc : Option (JVal × JVal × DateTime))
    (h : locStep tz st = Except.ok loc) :
    (pyBool (get_child_value st "Location.GeoCoord.Latitude") = false ∧ loc = none) ∨
    (pyBool (get_child_value st "Location.GeoCoord.Latitude") = true ∧
      ∃ t, loc = some (get_child_value st "Location.GeoCoord.Latitude",
          get_child_value st "Location.GeoCoord.Longitude", t) ∧
        (get_child_value st "Location.TimeStamp" = JVal.null →
          t = DateTime.civil 2000 1 1 0 0 0 tz)) := by
  unfold locStep at h
  by_cases hb : pyBool (get_child_value st "Location.GeoCoord.Latitude") = true
  · right
    refine ⟨hb, ?_⟩
    rw [if_pos hb] at h
    rcases hts : get_child_value st "Location.TimeStamp" with _ | b | x | s | kvs <;>
      simp only [hts, except_bind_ok, except_bind_error, except_pure] at h
    · exact ⟨DateTime.civil 2000 1 1 0 0 0 tz, (Except.ok.inj h).symm, fun _ => rfl⟩
    all_goals {
      rcases hlt : locTimestamp tz (get_child_value st "Location.TimeStamp")
          with e | t <;>
        rw [hts] at hlt <;>
        simp only [hlt, except_bind_ok, except_bind_error, except_pure] at h <;>
        try exact Except.noConfusion h
      exact ⟨t, (Except.ok.inj h).symm, fun habs => JVal.noConfusion habs⟩ }
  · left
    rw [if_neg hb] at h
    exact ⟨Bool.not_eq_true _ ▸ Bool.of_not_eq_true hb, (Except.ok.inj h).symm⟩

/-- The location block succeeds exactly when either the latitude reading is
falsy, or the timestamp sub-object is absent, or its six components convert
and combine into a valid timestamp. -/
theorem locStep_isOk_iff (tz : Tz) (st : JVal) :
    (∃ loc, locStep tz st = Except.ok loc) ↔
    (pyBool (get_child_value st "Location.GeoCoord.Latitude") = true →
      get_child_value st "Location.TimeStamp" ≠ JVal.null →
      ∃ t, locTimestamp tz (get_child_value st "Location.TimeStamp") = Except.ok t) := by
  unfold locStep
  by_cases hb : pyBool (get_child_value st "Location.GeoCoord.Latitude") = true
  · rw [if_pos hb]
    constructor
    · rintro ⟨loc, h⟩ _ hne
      rcases hts : get_child_value st "Location.TimeStamp" with _ | b | x | s | kvs
      · exact absurd hts hne
      all_goals {
        rw [hts] at h
        dsimp only at h
        rcases hlt : locTimestamp tz (get_child_value st "Location.TimeStamp")
            with e | t
        · rw [hts] at hlt
          simp only [hlt, except_bind_error] at h
          exact Except.noConfusion h
        · exact ⟨t, hts ▸ hlt⟩ }
    · intro himp
      rcases hts : get_child_value st "Location.TimeStamp" with _ | b | x | s | kvs
      · exact ⟨_, rfl⟩
      all_goals {
        rcases himp hb (fun habs => JVal.noConfusion (hts ▸ habs)) with ⟨t, ht⟩
        rw [hts] at ht
        refine ⟨some (get_child_value st "Location.GeoCoord.Latitude",
          get_child_value st "Location.GeoCoord.Longitude", t), ?_⟩
        dsimp only
        rw [ht]
        rfl }
  · rw [if_neg hb]
    exact ⟨fun _ h => absurd h hb, fun _ => ⟨none, rfl⟩⟩

/-- Tri-state decoding of code 0 writes `false`. -/
theorem triStateDecode_zero (p : Option Bool) :
    triStateDecode (JVal.num 0) p = some false := rfl

/-- Tri-state decoding of code 2 writes `false`. -/
theorem triStateDecode_two (p : Option Bool) :
    triStateDecode (JVal.num 2) p = some false := rfl

/-- Tri-state decoding of code 1 writes `true`. -/
theorem triStateDecode_one (p : Option Bool) :
    triStateDecode (JVal.num 1) p = some true := rfl

/-- Tri-state decoding of the absence marker keeps the previous value. -/
theorem triStateDecode_null (p : Option Bool) :
    triStateDecode JVal.null p = p := rfl

/-- Tri-state decoding of any numeric code other than 0, 1, 2 keeps the
previous value. -/
theorem triStateDecode_other (x : Rat) (h0 : x ≠ 0) (h1 : x ≠ 1) (h2 : x ≠ 2)
    (p : Option Bool) : triStateDecode (JVal.num x) p = p := by
  simp only [triStateDecode, pyEq, pyTruthNum, decide_eq_false h0, decide_eq_false h1,
    decide_eq_false h2, Bool.or_self, Bool.false_eq_true, if_false]

/-- Tri-state decoding applied twice with the same code is the same as
applying it once. -/
theorem triStateDecode_idem (c : JVal) (p : Option Bool) :
    triStateDecode c (triStateDecode c p) = triStateDecode c p := by
  unfold triStateDecode
  repeat' split
  all_goals simp_all

/-- Absorption of a repeated conditional in the then-branch. -/
theorem ite_then_ite {α : Type} {c : Prop} [Decidable c] (a b : α) :
    (if c then (if c then a else b) else b) = if c then a else b := by
  split <;> rfl

/-- Absorption of a repeated conditional in the else-branch. -/
theorem ite_else_ite {α : Type} {c : Prop} [Decidable c] (a b : α) :
    (if c then a else (if c then a else b)) = if c then a else b := by
  split <;> rfl

/-- Python equality against the literal string "OFF" holds exactly for that
string. -/
theorem pyEq_off_iff (r : JVal) :
    pyEq r (JVal.str "OFF") = true ↔ r = JVal.str "OFF" := by
  cases r <;> simp [pyEq, pyTruthNum]

/-! ## Concrete documents and snapshots for witnesses and counterexamples -/

/-- Seat sub-object carrying a climate state code. -/
def seatCode (x : Rat) : JVal :=
  JVal.obj [("Climate", JVal.obj [("State", JVal.num x)])]

/-- Minimal completing document: the four seat codes are in the table and
the total-range reading comes with the kilometers unit code; every other
source path is absent. -/
def docSeatsDte : JVal := JVal.obj [
  ("Cabin", JVal.obj [("Seat", JVal.obj [
      ("Row1", JVal.obj [("Driver", seatCode 1), ("Passenger", seatCode 1)]),
      ("Row2", JVal.obj [("Left", seatCode 1), ("Right", seatCode 1)])])]),
  ("Drivetrain", JVal.obj [("FuelSystem", JVal.obj [("DTE", JVal.obj [
      ("Total", JVal.num 400), ("Unit", JVal.num 1)])])])]

/-- Like `docSeatsDte` but with the whole `Drivetrain` subtree absent, so
that `Drivetrain.FuelSystem.DTE.Total` is absent. -/
def docSeatsOnly : JVal := JVal.obj [
  ("Cabin", JVal.obj [("Seat", JVal.obj [
      ("Row1", JVal.obj [("Driver", seatCode 1), ("Passenger", seatCode 1)]),
      ("Row2", JVal.obj [("Left", seatCode 1), ("Right", seatCode 1)])])])]

/-- Completing document with toggle codes: front defog 0, steering-wheel
heat 1, rear defog 3 (outside the decoded codes) and the charge-door state
absent. -/
def docToggles : JVal := JVal.obj [
  ("Cabin", JVal.obj [
    ("Seat", JVal.obj [
      ("Row1", JVal.obj [("Driver", seatCode 1), ("Passenger", seatCode 1)]),
      ("Row2", JVal.obj [("Left", seatCode 1), ("Right", seatCode 1)])]),
    ("SteeringWheel", JVal.obj [("Heat", JVal.obj [("State", JVal.num 1)])])]),
  ("Body", JVal.obj [("Windshield", JVal.obj [
    ("Front", JVal.obj [("Defog", JVal.obj [("State", JVal.num 0)])]),
    ("Rear", JVal.obj [("Defog", JVal.obj [("State", JVal.num 3)])])])]),
  ("Drivetrain", JVal.obj [("FuelSystem", JVal.obj [("DTE", JVal.obj [
      ("Total", JVal.num 400), ("Unit", JVal.num 1)])])])]

/-- Document whose driver-seat climate code 9 is outside the seat-status
table. -/
def docBadSeat : JVal := JVal.obj [
  ("Cabin", JVal.obj [("Seat", JVal.obj [
      ("Row1", JVal.obj [("Driver", seatCode 9), ("Passenger", seatCode 1)]),
      ("Row2", JVal.obj [("Left", seatCode 1), ("Right", seatCode 1)])])]),
  ("Drivetrain", JVal.obj [("FuelSystem", JVal.obj [("DTE", JVal.obj [
      ("Total", JVal.num 400), ("Unit", JVal.num 1)])])])]

/-- Completing document with door readings: driver door open, the other
three closed. -/
def docDoors : JVal := JVal.obj [
  ("Cabin", JVal.obj [
    ("Seat", JVal.obj [
      ("Row1", JVal.obj [("Driver", seatCode 1), ("Passenger", seatCode 1)]),
      ("Row2", JVal.obj [("Left", seatCode 1), ("Right", seatCode 1)])]),
    ("Door", JVal.obj [
      ("Row1", JVal.obj [("Driver", JVal.obj [("Open", JVal.bool true)]),
                         ("Passenger", JVal.obj [("Open", JVal.bool false)])]),
      ("Row2", JVal.obj [("Left", JVal.obj [("Open", JVal.bool false)]),
                         ("Right", JVal.obj [("Open", JVal.bool false)])])])]),
  ("Drivetrain", JVal.obj [("FuelSystem", JVal.obj [("DTE", JVal.obj [
      ("Total", JVal.num 400), ("Unit", JVal.num 1)])])])]

/-- Completing document whose cabin-temperature reading is the literal
string "OFF". -/
def docTempOff : JVal := JVal.obj [
  ("Cabin", JVal.obj [
    ("Seat", JVal.obj [
      ("Row1", JVal.obj [("Driver", seatCode 1), ("Passenger", seatCode 1)]),
      ("Row2", JVal.obj [("Left", seatCode 1), ("Right", seatCode 1)])]),
    ("HVAC", JVal.obj [("Row1", JVal.obj [("Driver", JVal.obj [
      ("Temperature", JVal.obj [("Value", JVal.str "OFF")])])])])]),
  ("Drivetrain", JVal.obj [("FuelSystem", JVal.obj [("DTE", JVal.obj [
      ("Total", JVal.num 400), ("Unit", JVal.num 1)])])])]

/-- Completing document with a latitude and longitude reading and no
`Location.TimeStamp` sub-object. -/
def docLocation : JVal := JVal.obj [
  ("Cabin", JVal.obj [("Seat", JVal.obj [
      ("Row1", JVal.obj [("Driver", seatCode 1), ("Passenger", seatCode 1)]),
      ("Row2", JVal.obj [("Left", seatCode 1), ("Right", seatCode 1)])])]),
  ("Drivetrain", JVal.obj [("FuelSystem", JVal.obj [("DTE", JVal.obj [
      ("Total", JVal.num 400), ("Unit", JVal.num 1)])])]),
  ("Location", JVal.obj [("GeoCoord", JVal.obj [
      ("Latitude", JVal.num 37), ("Longitude", JVal.num (-122))])])]

/-- Completing document with a truthy `Date` reading. -/
def docWithDate : JVal := JVal.obj [
  ("Date", JVal.str "20230310111213"),
  ("Cabin", JVal.obj [("Seat", JVal.obj [
      ("Row1", JVal.obj [("Driver", seatCode 1), ("Passenger", seatCode 1)]),
      ("Row2", JVal.obj [("Left", seatCode 1), ("Right", seatCode 1)])])]),
  ("Drivetrain", JVal.obj [("FuelSystem", JVal.obj [("DTE", JVal.obj [
      ("Total", JVal.num 400), ("Unit", JVal.num 1)])])])]

/-- Completing document where the first plugged-in source path
(`...ElectricCurrentLevel.State`) is present while the second
(`...ConnectorFastening.State`) is absent. -/
def docPlugged : JVal := JVal.obj [
  ("Cabin", JVal.obj [("Seat", JVal.obj [
      ("Row1", JVal.obj [("Driver", seatCode 1), ("Passenger", seatCode 1)]),
      ("Row2", JVal.obj [("Left", seatCode 1), ("Right", seatCode 1)])])]),
  ("Drivetrain", JVal.obj [("FuelSystem", JVal.obj [("DTE", JVal.obj [
      ("Total", JVal.num 400), ("Unit", JVal.num 1)])])]),
  ("Green", JVal.obj [("ChargingInformation", JVal.obj [
      ("ElectricCurrentLevel", JVal.obj [("State", JVal.num 3)])])])]

/-- A long-lived snapshot with previously populated fields, used as the
prior state of the pass. -/
def priorVehicle : Vehicle := {
  car_battery_percentage := JVal.num 50,
  engine_is_running := JVal.bool true,
  defrost_is_on := some true,
  steering_wheel_heater_is_on := some false,
  back_window_heater_is_on := some true,
  ev_charge_port_door_is_open := some true,
  ev_battery_is_plugged_in := JVal.bool true,
  _air_temperature := JVal.num 21.5,
  _air_temperature_value := JVal.num 21.5,
  _air_temperature_unit := some "°C",
  _location_latitude := JVal.num 11,
  _location_longitude := JVal.num 22,
  _location_last_set_time := some (DateTime.civil 1999 12 31 23 59 59 "UTC") }

/-! ## Claims -/

/-- Claim C1, counterexample: the `Electronics.Battery.Level` source path is
absent from `docSeatsDte`, the snapshot previously held battery level 50,
and after a completed pass the field holds the absence marker instead of
its previous value — so absence does overwrite a previously set
pass-through field. -/
theorem C1_counterexample :
    get_child_value docSeatsDte "Electronics.Battery.Level" = JVal.null ∧
    priorVehicle.car_battery_percentage = JVal.num 50 ∧
    Except.map Vehicle.car_battery_percentage
        (update_ccs2 priorVehicle 0 "UTC" docSeatsDte) = Except.ok JVal.null ∧
    JVal.null ≠ JVal.num 50 :=
  ⟨rfl, rfl, rfl, fun habs => JVal.noConfusion habs⟩

/-- Claim C1, amended: only the conditionally written fields retain their
previous value when their source path is absent — the three tri-state
toggles, the charge-port-door state and the location triple (the latter
whenever the latitude reading is absent); unguarded pass-through fields
are overwritten by the absent reading instead. -/
theorem C1_theorem (v : Vehicle) (n : Nat) (tz : Tz) (st : JVal) (w : Vehicle)
    (h : update_ccs2 v n tz st = Except.ok w) :
    (get_child_value st "Body.Windshield.Front.Defog.State" = JVal.null →
      w.defrost_is_on = v.defrost_is_on) ∧
    (get_child_value st "Cabin.SteeringWheel.Heat.State" = JVal.null →
      w.steering_wheel_heater_is_on = v.steering_wheel_heater_is_on) ∧
    (get_child_value st "Body.Windshield.Rear.Defog.State" = JVal.null →
      w.back_window_heater_is_on = v.back_window_heater_is_on) ∧
    (get_child_value st "Green.ChargingDoor.State" = JVal.null →
      w.ev_charge_port_door_is_open = v.ev_charge_port_door_is_open) ∧
    (get_child_value st "Location.GeoCoord.Latitude" = JVal.null →
      w._location_latitude = v._location_latitude ∧
      w._location_longitude = v._location_longitude ∧
      w._location_last_set_time = v._location_last_set_time) := by
  rcases (update_ccs2_ok_iff v n tz st w).mp h with
    ⟨sFL, sFR, sRL, sRR, q, dU, loc, hFL, hFR, hRL, hRR, hq, hu, hloc, rfl⟩
  rw [applyFields_eq]
  refine ⟨?_, ?_, ?_, ?_, ?_⟩
  · intro hnull; rw [hnull, triStateDecode_null]
  · intro hnull; rw [hnull, triStateDecode_null]
  · intro hnull; rw [hnull, triStateDecode_null]
  · intro hnull; rw [hnull, triStateDecode_null]
  · intro hnull
    rcases locStep_ok_inv tz st loc hloc with ⟨_, rfl⟩ | ⟨htrue, _, _, _⟩
    · exact ⟨rfl, rfl, rfl⟩
    · rw [hnull] at htrue
      exact Bool.noConfusion htrue

/-- Claim C1, witness: on `docSeatsDte` (toggle paths, charge-door path and
latitude all absent) the pass completes and the guarded fields of
`priorVehicle` keep their previous values. -/
theorem C1_witness :
    ∃ w, update_ccs2 priorVehicle 0 "UTC" docSeatsDte = Except.ok w ∧
      w.defrost_is_on = priorVehicle.defrost_is_on ∧
      w.ev_charge_port_door_is_open = priorVehicle.ev_charge_port_door_is_open ∧
      w._location_latitude = priorVehicle._location_latitude := by
  obtain ⟨w, hw⟩ : ∃ w, update_ccs2 priorVehicle 0 "UTC" docSeatsDte = Except.ok w :=
    ⟨_, rfl⟩
  have hc := C1_theorem priorVehicle 0 "UTC" docSeatsDte w hw
  exact ⟨w, hw, hc.1 rfl, hc.2.2.2.1 rfl, (hc.2.2.2.2 rfl).1⟩

/-- Claim C2: every composite write is atomic.  Each property setter
stores the raw value, the value field and the unit (or the full location
triple) from its one tuple argument, and after a completed pass the
odometer and total-driving-range composites pair the value and the unit
obtained from the same source readings of that pass. -/
theorem C2_theorem :
    (∀ (v : Vehicle) (val : JVal × String),
      (v.set_odometer val)._odometer_value = get_float val.1 ∧
      (v.set_odometer val)._odometer_unit = some val.2 ∧
      (v.set_odometer val)._odometer = get_float val.1) ∧
    (∀ (v : Vehicle) (val : Rat × String),
      (v.set_total_driving_range val)._total_driving_range_value = some val.1 ∧
      (v.set_total_driving_range val)._total_driving_range_unit = some val.2 ∧
      (v.set_total_driving_range val)._total_driving_range = some val.1) ∧
    (∀ (v : Vehicle) (val : JVal × String),
      (v.set_air_temperature val)._air_temperature_value = val.1 ∧
      (v.set_air_temperature val)._air_temperature_unit = some val.2 ∧
      (v.set_air_temperature val)._air_temperature = val.1) ∧
    (∀ (v : Vehicle) (val : Option Rat × Option String),
      (v.set_ev_driving_range val)._ev_driving_range_value = val.1 ∧
      (v.set_ev_driving_range val)._ev_driving_range_unit = val.2 ∧
      (v.set_ev_driving_range val)._ev_driving_range = val.1) ∧
    (∀ (v : Vehicle) (val : JVal × String),
      (v.set_ev_estimated_current_charge_duration val)._ev_estimated_current_charge_duration_value = val.1 ∧
      (v.set_ev_estimated_current_charge_duration val)._ev_estimated_current_charge_duration_unit = some val.2 ∧
      (v.set_ev_estimated_current_charge_duration val)._ev_estimated_current_charge_duration = val.1) ∧
    (∀ (v : Vehicle) (val : JVal × String),
      (v.set_ev_estimated_fast_charge_duration val)._ev_estimated_fast_charge_duration_value = val.1 ∧
      (v.set_ev_estimated_fast_charge_duration val)._ev_estimated_fast_charge_duration_unit = some val.2 ∧
      (v.set_ev_estimated_fast_charge_duration val)._ev_estimated_fast_charge_duration = val.1) ∧
    (∀ (v : Vehicle) (val : JVal × String),
      (v.set_ev_estimated_portable_charge_duration val)._ev_estimated_portable_charge_duration_value = val.1 ∧
      (v.set_ev_estimated_portable_charge_duration val)._ev_estimated_portable_charge_duration_unit = some val.2 ∧
      (v.set_ev_estimated_portable_charge_duration val)._ev_estimated_portable_charge_duration = val.1) ∧
    (∀ (v : Vehicle) (val : JVal × String),
      (v.set_ev_estimated_station_charge_duration val)._ev_estimated_station_charge_duration_value = val.1 ∧
      (v.set_ev_estimated_station_charge_duration val)._ev_estimated_station_charge_duration_unit = some val.2 ∧
      (v.set_ev_estimated_station_charge_duration val)._ev_estimated_station_charge_duration = val.1) ∧
    (∀ (v : Vehicle) (val : JVal × String),
      (v.set_ev_target_range_charge_AC val)._ev_target_range_charge_AC_value = val.1 ∧
      (v.set_ev_target_range_charge_AC val)._ev_target_range_charge_AC_unit = some val.2 ∧
      (v.set_ev_target_range_charge_AC val)._ev_target_range_charge_AC = val.1) ∧
    (∀ (v : Vehicle) (val : JVal × String),
      (v.set_ev_target_range_charge_DC val)._ev_target_range_charge_DC_value = val.1 ∧
      (v.set_ev_target_range_charge_DC val)._ev_target_range_charge_DC_unit = some val.2 ∧
      (v.set_ev_target_range_charge_DC val)._ev_target_range_charge_DC = val.1) ∧
    (∀ (v : Vehicle) (val : JVal × JVal × DateTime),
      (v.set_location val)._location_latitude = val.1 ∧
      (v.set_location val)._location_longitude = val.2.1 ∧
      (v.set_location val)._location_last_set_time = some val.2.2) ∧
    (∀ (v : Vehicle) (n : Nat) (tz : Tz) (st : JVal) (w : Vehicle),
      update_ccs2 v n tz st = Except.ok w →
      w._odometer_value = get_float (get_child_value st "Drivetrain.Odometer") ∧
      w._odometer_unit = some "km" ∧
      ∃ (q : Rat) (u : String),
        pyFloat (get_child_value st "Drivetrain.FuelSystem.DTE.Total") = Except.ok q ∧
        DISTANCE_UNITS (get_child_value st "Drivetrain.FuelSystem.DTE.Unit") = some u ∧
        w._total_driving_range_value = some q ∧
        w._total_driving_range_unit = some u ∧
        w._total_driving_range = some q) := by
  refine ⟨fun v val => ⟨rfl, rfl, rfl⟩, fun v val => ⟨rfl, rfl, rfl⟩,
    fun v val => ⟨rfl, rfl, rfl⟩, fun v val => ⟨rfl, rfl, rfl⟩,
    fun v val => ⟨rfl, rfl, rfl⟩, fun v val => ⟨rfl, rfl, rfl⟩,
    fun v val => ⟨rfl, rfl, rfl⟩, fun v val => ⟨rfl, rfl, rfl⟩,
    fun v val => ⟨rfl, rfl, rfl⟩, fun v val => ⟨rfl, rfl, rfl⟩,
    fun v val => ⟨rfl, rfl, rfl⟩, ?_⟩
  intro v n tz st w h
  rcases (update_ccs2_ok_iff v n tz st w).mp h with
    ⟨sFL, sFR, sRL, sRR, q, dU, loc, hFL, hFR, hRL, hRR, hq, hu, hloc, rfl⟩
  rw [applyFields_eq]
  exact ⟨rfl, rfl, q, dU, hq, hu, rfl, rfl, rfl⟩

/-- Claim C3, counterexample: on a document with the seat codes present
but `Drivetrain.FuelSystem.DTE.Total` absent, the pass raises instead of
running to completion — absence of that path aborts the pass through the
unguarded `float(...)` conversion. -/
theorem C3_counterexample :
    get_child_value docSeatsOnly "Drivetrain.FuelSystem.DTE.Total" = JVal.null ∧
    update_ccs2 priorVehicle 0 "UTC" docSeatsOnly =
      Except.error "TypeError: float() argument is null or a mapping" :=
  ⟨rfl, rfl⟩

/-- Claim C3, amended: path resolution itself never raises and absence of
a source path never aborts the pass, except where an absent reading feeds
an unguarded conversion or lookup: the pass completes exactly when the
four seat codes are in the seat-status table, the total-range reading
converts with `float`, the distance-unit code is in the unit table, and —
whenever the latitude reading is truthy and the timestamp sub-object
present — the six timestamp components convert and combine. -/
theorem C3_theorem (v : Vehicle) (n : Nat) (tz : Tz) (st : JVal) :
    (∃ w, update_ccs2 v n tz st = Except.ok w) ↔
    ((∃ s, SEAT_STATUS (get_child_value st "Cabin.Seat.Row1.Driver.Climate.State") = some s) ∧
     (∃ s, SEAT_STATUS (get_child_value st "Cabin.Seat.Row1.Passenger.Climate.State") = some s) ∧
     (∃ s, SEAT_STATUS (get_child_value st "Cabin.Seat.Row2.Left.Climate.State") = some s) ∧
     (∃ s, SEAT_STATUS (get_child_value st "Cabin.Seat.Row2.Right.Climate.State") = some s) ∧
     (∃ q, pyFloat (get_child_value st "Drivetrain.FuelSystem.DTE.Total") = Except.ok q) ∧
     (∃ u, DISTANCE_UNITS (get_child_value st "Drivetrain.FuelSystem.DTE.Unit") = some u) ∧
     (pyBool (get_child_value st "Location.GeoCoord.Latitude") = true →
       get_child_value st "Location.TimeStamp" ≠ JVal.null →
       ∃ t, locTimestamp tz (get_child_value st "Location.TimeStamp") = Except.ok t)) := by
  constructor
  · rintro ⟨w, h⟩
    rcases (update_ccs2_ok_iff v n tz st w).mp h with
      ⟨sFL, sFR, sRL, sRR, q, dU, loc, hFL, hFR, hRL, hRR, hq, hu, hloc, _⟩
    exact ⟨⟨sFL, hFL⟩, ⟨sFR, hFR⟩, ⟨sRL, hRL⟩, ⟨sRR, hRR⟩, ⟨q, hq⟩, ⟨dU, hu⟩,
      (locStep_isOk_iff tz st).mp ⟨loc, hloc⟩⟩
  · rintro ⟨⟨sFL, hFL⟩, ⟨sFR, hFR⟩, ⟨sRL, hRL⟩, ⟨sRR, hRR⟩, ⟨q, hq⟩, ⟨dU, hu⟩, hlocCond⟩
    rcases (locStep_isOk_iff tz st).mpr hlocCond with ⟨loc, hloc⟩
    exact ⟨_, (update_ccs2_ok_iff v n tz st _).mpr
      ⟨sFL, sFR, sRL, sRR, q, dU, loc, hFL, hFR, hRL, hRR, hq, hu, hloc, rfl⟩⟩

/-- Claim C4: tri-state decoding for the front defrost, steering-wheel
heater, rear-window heater and charge-port-door fields — codes 0 and 2
write `false`, code 1 writes `true`, absence and any other numeric code
leave the field at its previous value. -/
theorem C4_theorem (v : Vehicle) (n : Nat) (tz : Tz) (st : JVal) (w : Vehicle)
    (h : update_ccs2 v n tz st = Except.ok w) :
    ((get_child_value st "Body.Windshield.Front.Defog.State" = JVal.num 0 ∨
        get_child_value st "Body.Windshield.Front.Defog.State" = JVal.num 2 →
        w.defrost_is_on = some false) ∧
     (get_child_value st "Body.Windshield.Front.Defog.State" = JVal.num 1 →
        w.defrost_is_on = some true) ∧
     (get_child_value st "Body.Windshield.Front.Defog.State" = JVal.null →
        w.defrost_is_on = v.defrost_is_on) ∧
     (∀ x : Rat, get_child_value st "Body.Windshield.Front.Defog.State" = JVal.num x →
        x ≠ 0 → x ≠ 1 → x ≠ 2 → w.defrost_is_on = v.defrost_is_on)) ∧
    ((get_child_value st "Cabin.SteeringWheel.Heat.State" = JVal.num 0 ∨
        get_child_value st "Cabin.SteeringWheel.Heat.State" = JVal.num 2 →
        w.steering_wheel_heater_is_on = some false) ∧
     (get_child_value st "Cabin.SteeringWheel.Heat.State" = JVal.num 1 →
        w.steering_wheel_heater_is_on = some true) ∧
     (get_child_value st "Cabin.SteeringWheel.Heat.State" = JVal.null →
        w.steering_wheel_heater_is_on = v.steering_wheel_heater_is_on) ∧
     (∀ x : Rat, get_child_value st "Cabin.SteeringWheel.Heat.State" = JVal.num x →
        x ≠ 0 → x ≠ 1 → x ≠ 2 →
        w.steering_wheel_heater_is_on = v.steering_wheel_heater_is_on)) ∧
    ((get_child_value st "Body.Windshield.Rear.Defog.State" = JVal.num 0 ∨
        get_child_value st "Body.Windshield.Rear.Defog.State" = JVal.num 2 →
        w.back_window_heater_is_on = some false) ∧
     (get_child_value st "Body.Windshield.Rear.Defog.State" = JVal.num 1 →
        w.back_window_heater_is_on = some true) ∧
     (get_child_value st "Body.Windshield.Rear.Defog.State" = JVal.null →
        w.back_window_heater_is_on = v.back_window_heater_is_on) ∧
     (∀ x : Rat, get_child_value st "Body.Windshield.Rear.Defog.State" = JVal.num x →
        x ≠ 0 → x ≠ 1 → x ≠ 2 →
        w.back_window_heater_is_on = v.back_window_heater_is_on)) ∧
    ((get_child_value st "Green.ChargingDoor.State" = JVal.num 0 ∨
        get_child_value st "Green.ChargingDoor.State" = JVal.num 2 →
        w.ev_charge_port_door_is_open = some false) ∧
     (get_child_value st "Green.ChargingDoor.State" = JVal.num 1 →
        w.ev_charge_port_door_is_open = some true) ∧
     (get_child_value st "Green.ChargingDoor.State" = JVal.null →
        w.ev_charge_port_door_is_open = v.ev_charge_port_door_is_open) ∧
     (∀ x : Rat, get_child_value st "Green.ChargingDoor.State" = JVal.num x →
        x ≠ 0 → x ≠ 1 → x ≠ 2 →
        w.ev_charge_port_door_is_open = v.ev_charge_port_door_is_open)) := by
  rcases (update_ccs2_ok_iff v n tz st w).mp h with
    ⟨sFL, sFR, sRL, sRR, q, dU, loc, hFL, hFR, hRL, hRR, hq, hu, hloc, rfl⟩
  rw [applyFields_eq]
  refine ⟨⟨?_, ?_, ?_, ?_⟩, ⟨?_, ?_, ?_, ?_⟩, ⟨?_, ?_, ?_, ?_⟩, ⟨?_, ?_, ?_, ?_⟩⟩ <;>
    first
    | (rintro (hr | hr) <;> rw [hr] <;> rfl)
    | (intro hr; rw [hr]; rfl)
    | (intro x hr h0 h1 h2; rw [hr]; exact triStateDecode_other x h0 h1 h2 _)

/-- Claim C4, witness: on `docToggles` the pass completes with front
defrost decoded from code 0 to `false`, the steering-wheel heater from
code 1 to `true`, and the rear-window heater (code 3) and charge-port door
(absent) left at their previous values. -/
theorem C4_witness :
    ∃ w, update_ccs2 priorVehicle 0 "UTC" docToggles = Except.ok w ∧
      w.defrost_is_on = some false ∧
      w.steering_wheel_heater_is_on = some true ∧
      w.back_window_heater_is_on = priorVehicle.back_window_heater_is_on ∧
      w.ev_charge_port_door_is_open = priorVehicle.ev_charge_port_door_is_open := by
  obtain ⟨w, hw⟩ : ∃ w, update_ccs2 priorVehicle 0 "UTC" docToggles = Except.ok w :=
    ⟨_, rfl⟩
  have hc := C4_theorem priorVehicle 0 "UTC" docToggles w hw
  refine ⟨w, hw, hc.1.1 (Or.inl rfl), hc.2.1.2.1 rfl, ?_, hc.2.2.2.2.2.1 rfl⟩
  exact hc.2.2.1.2.2.2 3 rfl (by norm_num) (by norm_num) (by norm_num)

/-- Claim C5: the seat-status lookups are unguarded — if any of the four
seat-climate codes (including an absent one) is outside the seat-status
table's domain the pass raises; and on a completed pass each seat-status
field holds the table's named state for its code. -/
theorem C5_theorem (v : Vehicle) (n : Nat) (tz : Tz) (st : JVal) :
    ((SEAT_STATUS (get_child_value st "Cabin.Seat.Row1.Driver.Climate.State") = none ∨
      SEAT_STATUS (get_child_value st "Cabin.Seat.Row1.Passenger.Climate.State") = none ∨
      SEAT_STATUS (get_child_value st "Cabin.Seat.Row2.Left.Climate.State") = none ∨
      SEAT_STATUS (get_child_value st "Cabin.Seat.Row2.Right.Climate.State") = none) →
      ∀ w, update_ccs2 v n tz st ≠ Except.ok w) ∧
    (∀ w, update_ccs2 v n tz st = Except.ok w →
      (∀ s, SEAT_STATUS (get_child_value st "Cabin.Seat.Row1.Driver.Climate.State") = some s →
        w.front_left_seat_status = some s) ∧
      (∀ s, SEAT_STATUS (get_child_value st "Cabin.Seat.Row1.Passenger.Climate.State") = some s →
        w.front_right_seat_status = some s) ∧
      (∀ s, SEAT_STATUS (get_child_value st "Cabin.Seat.Row2.Left.Climate.State") = some s →
        w.rear_left_seat_status = some s) ∧
      (∀ s, SEAT_STATUS (get_child_value st "Cabin.Seat.Row2.Right.Climate.State") = some s →
        w.rear_right_seat_status = some s)) := by
  constructor
  · intro hbad w h
    rcases (update_ccs2_ok_iff v n tz st w).mp h with
      ⟨sFL, sFR, sRL, sRR, q, dU, loc, hFL, hFR, hRL, hRR, hq, hu, hloc, _⟩
    rcases hbad with hb | hb | hb | hb
    · rw [hb] at hFL; exact Option.noConfusion hFL
    · rw [hb] at hFR; exact Option.noConfusion hFR
    · rw [hb] at hRL; exact Option.noConfusion hRL
    · rw [hb] at hRR; exact Option.noConfusion hRR
  · intro w h
    rcases (update_ccs2_ok_iff v n tz st w).mp h with
      ⟨sFL, sFR, sRL, sRR, q, dU, loc, hFL, hFR, hRL, hRR, hq, hu, hloc, rfl⟩
    rw [applyFields_eq]
    refine ⟨?_, ?_, ?_, ?_⟩
    · intro s hs; rw [hFL] at hs; exact hs
    · intro s hs; rw [hFR] at hs; exact hs
    · intro s hs; rw [hRL] at hs; exact hs
    · intro s hs; rw [hRR] at hs; exact hs

/-- Claim C5, witness: the out-of-table driver-seat code 9 of `docBadSeat`
makes the pass raise, while on `docSeatsDte` (all four codes 1) the pass
completes and sets the driver-seat status to the table's named state for
code 1. -/
theorem C5_witness :
    (∀ w, update_ccs2 priorVehicle 0 "UTC" docBadSeat ≠ Except.ok w) ∧
    (∃ w, update_ccs2 priorVehicle 0 "UTC" docSeatsDte = Except.ok w ∧
      w.front_left_seat_status = some "On") := by
  constructor
  · exact (C5_theorem priorVehicle 0 "UTC" docBadSeat).1 (Or.inl rfl)
  · obtain ⟨w, hw⟩ : ∃ w, update_ccs2 priorVehicle 0 "UTC" docSeatsDte = Except.ok w :=
      ⟨_, rfl⟩
    exact ⟨w, hw, ((C5_theorem priorVehicle 0 "UTC" docSeatsDte).2 w hw).1 "On" rfl⟩

/-- Claim C6: after a completed pass, `is_locked` is the negated
disjunction of the truthiness of the four door-open fields written earlier
in the same pass — it is `true` exactly when none of the four door
readings is truthy — and the four door fields hold this pass's
readings. -/
theorem C6_theorem (v : Vehicle) (n : Nat) (tz : Tz) (st : JVal) (w : Vehicle)
    (h : update_ccs2 v n tz st = Except.ok w) :
    w.is_locked = some (!(pyBool w.front_left_door_is_open
      || pyBool w.front_right_door_is_open
      || pyBool w.back_left_door_is_open
      || pyBool w.back_right_door_is_open)) ∧
    (w.is_locked = some true ↔
      (pyBool w.front_left_door_is_open = false ∧
       pyBool w.front_right_door_is_open = false ∧
       pyBool w.back_left_door_is_open = false ∧
       pyBool w.back_right_door_is_open = false)) ∧
    w.front_left_door_is_open = get_child_value st "Cabin.Door.Row1.Driver.Open" ∧
    w.front_right_door_is_open = get_child_value st "Cabin.Door.Row1.Passenger.Open" ∧
    w.back_left_door_is_open = get_child_value st "Cabin.Door.Row2.Left.Open" ∧
    w.back_right_door_is_open = get_child_value st "Cabin.Door.Row2.Right.Open" := by
  rcases (update_ccs2_ok_iff v n tz st w).mp h with
    ⟨sFL, sFR, sRL, sRR, q, dU, loc, hFL, hFR, hRL, hRR, hq, hu, hloc, rfl⟩
  rw [applyFields_eq]
  refine ⟨rfl, ?_, rfl, rfl, rfl, rfl⟩
  simp only [Option.some.injEq, Bool.not_eq_true', Bool.or_eq_false_iff, and_assoc]

/-- Claim C6, witness: on `docDoors` (driver door open, the other three
closed) the pass completes with `is_locked` false, and the derived
equivalence holds at the written door fields. -/
theorem C6_witness :
    ∃ w, update_ccs2 priorVehicle 0 "UTC" docDoors = Except.ok w ∧
      w.is_locked = some false ∧
      w.front_left_door_is_open = JVal.bool true ∧
      (w.is_locked = some true ↔
        (pyBool w.front_left_door_is_open = false ∧
         pyBool w.front_right_door_is_open = false ∧
         pyBool w.back_left_door_is_open = false ∧
         pyBool w.back_right_door_is_open = false)) := by
  obtain ⟨w, hw⟩ : ∃ w, update_ccs2 priorVehicle 0 "UTC" docDoors = Except.ok w :=
    ⟨_, rfl⟩
  have hc := C6_theorem priorVehicle 0 "UTC" docDoors w hw
  refine ⟨w, hw, ?_, ?_, hc.2.1⟩
  · rw [hc.1, hc.2.2.1, hc.2.2.2.1, hc.2.2.2.2.1, hc.2.2.2.2.2]
    rfl
  · exact hc.2.2.1

/-- Claim C7: when the cabin-temperature reading is the literal string
"OFF" the pass leaves the whole air-temperature composite untouched; for
any other reading (the absence marker included) it writes the reading and
the fixed temperature unit together. -/
theorem C7_theorem (v : Vehicle) (n : Nat) (tz : Tz) (st : JVal) (w : Vehicle)
    (h : update_ccs2 v n tz st = Except.ok w) :
    (get_child_value st "Cabin.HVAC.Row1.Driver.Temperature.Value" = JVal.str "OFF" →
      w._air_temperature = v._air_temperature ∧
      w._air_temperature_value = v._air_temperature_value ∧
      w._air_temperature_unit = v._air_temperature_unit) ∧
    (get_child_value st "Cabin.HVAC.Row1.Driver.Temperature.Value" ≠ JVal.str "OFF" →
      w._air_temperature = get_child_value st "Cabin.HVAC.Row1.Driver.Temperature.Value" ∧
      w._air_temperature_value = get_child_value st "Cabin.HVAC.Row1.Driver.Temperature.Value" ∧
      w._air_temperature_unit = some "°C") := by
  rcases (update_ccs2_ok_iff v n tz st w).mp h with
    ⟨sFL, sFR, sRL, sRR, q, dU, loc, hFL, hFR, hRL, hRR, hq, hu, hloc, rfl⟩
  rw [applyFields_eq]
  constructor
  · intro hoff
    have hc : pyEq (get_child_value st "Cabin.HVAC.Row1.Driver.Temperature.Value")
        (JVal.str "OFF") = true := (pyEq_off_iff _).mpr hoff
    exact ⟨by dsimp only; rw [if_pos hc], by dsimp only; rw [if_pos hc],
      by dsimp only; rw [if_pos hc]⟩
  · intro hne
    have hc : ¬(pyEq (get_child_value st "Cabin.HVAC.Row1.Driver.Temperature.Value")
        (JVal.str "OFF") = true) := fun habs => hne ((pyEq_off_iff _).mp habs)
    exact ⟨by dsimp only; rw [if_neg hc], by dsimp only; rw [if_neg hc],
      by dsimp only; rw [if_neg hc]⟩

/-- Claim C7, witness: on `docTempOff` (cabin temperature reading "OFF")
the pass completes and the snapshot keeps its prior 21.5 °C temperature
composite. -/
theorem C7_witness :
    priorVehicle._air_temperature = JVal.num 21.5 ∧
    ∃ w, update_ccs2 priorVehicle 0 "UTC" docTempOff = Except.ok w ∧
      w._air_temperature = JVal.num 21.5 ∧
      w._air_temperature_unit = some "°C" := by
  obtain ⟨w, hw⟩ : ∃ w, update_ccs2 priorVehicle 0 "UTC" docTempOff = Except.ok w :=
    ⟨_, rfl⟩
  have hc := (C7_theorem priorVehicle 0 "UTC" docTempOff w hw).1 rfl
  exact ⟨rfl, w, hw, hc.1.trans rfl, hc.2.2.trans rfl⟩

/-- Claim C8: the location triple is written only when the latitude
reading is truthy (absence leaves all three fields untouched); on a pass
that writes it, latitude and longitude are this pass's readings and, when
the `Location.TimeStamp` sub-object is absent, the recorded timestamp is
midnight of 2000-01-01 in the supplied timezone. -/
theorem C8_theorem (v : Vehicle) (n : Nat) (tz : Tz) (st : JVal) (w : Vehicle)
    (h : update_ccs2 v n tz st = Except.ok w) :
    (get_child_value st "Location.GeoCoord.Latitude" = JVal.null →
      w._location_latitude = v._location_latitude ∧
      w._location_longitude = v._location_longitude ∧
      w._location_last_set_time = v._location_last_set_time) ∧
    (pyBool (get_child_value st "Location.GeoCoord.Latitude") = true →
      w._location_latitude = get_child_value st "Location.GeoCoord.Latitude" ∧
      w._location_longitude = get_child_value st "Location.GeoCoord.Longitude" ∧
      (get_child_value st "Location.TimeStamp" = JVal.null →
        w._location_last_set_time = some (DateTime.civil 2000 1 1 0 0 0 tz))) := by
  rcases (update_ccs2_ok_iff v n tz st w).mp h with
    ⟨sFL, sFR, sRL, sRR, q, dU, loc, hFL, hFR, hRL, hRR, hq, hu, hloc, rfl⟩
  rw [applyFields_eq]
  rcases locStep_ok_inv tz st loc hloc with ⟨hfalse, rfl⟩ | ⟨htrue, t, rfl, himp⟩
  · constructor
    · intro _; exact ⟨rfl, rfl, rfl⟩
    · intro ht; rw [hfalse] at ht; exact Bool.noConfusion ht
  · constructor
    · intro hnull; rw [hnull] at htrue; exact Bool.noConfusion htrue
    · intro _; exact ⟨rfl, rfl, fun hts => by rw [himp hts]⟩

/-- Claim C8, witness: on `docLocation` (latitude 37, longitude -122, no
timestamp sub-object) the pass completes, writes the coordinate pair, and
records the default 2000-01-01 midnight timestamp in the supplied
timezone. -/
theorem C8_witness :
    ∃ w, update_ccs2 priorVehicle 0 "UTC" docLocation = Except.ok w ∧
      w._location_latitude = JVal.num 37 ∧
      w._location_longitude = JVal.num (-122) ∧
      w._location_last_set_time = some (DateTime.civil 2000 1 1 0 0 0 "UTC") := by
  obtain ⟨w, hw⟩ : ∃ w, update_ccs2 priorVehicle 0 "UTC" docLocation = Except.ok w :=
    ⟨_, rfl⟩
  have hc := (C8_theorem priorVehicle 0 "UTC" docLocation w hw).2 rfl
  exact ⟨w, hw, hc.1.trans rfl, hc.2.1.trans rfl, hc.2.2 rfl⟩

/-- Claim C9, counterexample: on a document without a `Date` reading, the
pass sets `last_updated_at` from the ambient clock; running the pass a
second time after the clock advanced yields a different snapshot than
running it once — the pass is not a function of (document, timezone, prior
state) alone. -/
theorem C9_counterexample :
    Except.map Vehicle.last_updated_at
        ((update_ccs2 priorVehicle 0 "UTC" docSeatsDte) >>=
          fun w => update_ccs2 w 1 "UTC" docSeatsDte)
      = Except.ok (some (DateTime.nowAt 1 "UTC")) ∧
    Except.map Vehicle.last_updated_at (update_ccs2 priorVehicle 0 "UTC" docSeatsDte)
      = Except.ok (some (DateTime.nowAt 0 "UTC")) ∧
    (some (DateTime.nowAt 1 "UTC") : Option DateTime) ≠ some (DateTime.nowAt 0 "UTC") := by
  refine ⟨rfl, rfl, ?_⟩
  intro habs
  exact absurd (DateTime.nowAt.inj (Option.some.inj habs)).1 (by norm_num)

/-- Claim C9, amended: whenever the `Date` reading is present (truthy),
the pass is a deterministic function of the document, the timezone and the
prior snapshot, and running it a second time — at any later clock
reading — returns the snapshot unchanged. -/
theorem C9_theorem (v : Vehicle) (n n2 : Nat) (tz : Tz) (st : JVal) (w : Vehicle)
    (hd : pyBool (get_child_value st "Date") = true)
    (h : update_ccs2 v n tz st = Except.ok w) :
    update_ccs2 w n2 tz st = Except.ok w := by
  rcases (update_ccs2_ok_iff v n tz st w).mp h with
    ⟨sFL, sFR, sRL, sRR, q, dU, loc, hFL, hFR, hRL, hRR, hq, hu, hloc, rfl⟩
  refine (update_ccs2_ok_iff _ n2 tz st _).mpr
    ⟨sFL, sFR, sRL, sRR, q, dU, loc, hFL, hFR, hRL, hRR, hq, hu, hloc, ?_⟩
  rcases loc with _ | ⟨la, lo, t⟩ <;>
    simp only [applyFields_eq, triStateDecode_idem, ite_then_ite, ite_else_ite, hd,
      eq_self_iff_true, if_true]

/-- Claim C9, witness: on `docWithDate` (truthy `Date` reading) the first
pass completes and a second pass at a later clock reading returns the
identical snapshot. -/
theorem C9_witness :
    ∃ w, update_ccs2 priorVehicle 0 "UTC" docWithDate = Except.ok w ∧
      update_ccs2 w 1 "UTC" docWithDate = Except.ok w := by
  obtain ⟨w, hw⟩ : ∃ w, update_ccs2 priorVehicle 0 "UTC" docWithDate = Except.ok w :=
    ⟨_, rfl⟩
  exact ⟨w, hw, C9_theorem priorVehicle 0 1 "UTC" docWithDate w rfl hw⟩

/-- Claim C10: after every completed pass the plugged-in field holds the
resolver's result for `Green.ChargingInformation.ConnectorFastening.State`
— also when that path is absent — so the earlier write from
`Green.ChargingInformation.ElectricCurrentLevel.State` never survives. -/
theorem C10_theorem (v : Vehicle) (n : Nat) (tz : Tz) (st : JVal) (w : Vehicle)
    (h : update_ccs2 v n tz st = Except.ok w) :
    w.ev_battery_is_plugged_in =
      get_child_value st "Green.ChargingInformation.ConnectorFastening.State" := by
  rcases (update_ccs2_ok_iff v n tz st w).mp h with
    ⟨sFL, sFR, sRL, sRR, q, dU, loc, hFL, hFR, hRL, hRR, hq, hu, hloc, rfl⟩
  rw [applyFields_eq]

/-- Claim C10, witness: on `docPlugged` the first candidate path resolves
to code 3 while the connector-fastening path is absent, and after the pass
the plugged-in field is the absence marker — the first reading did not
survive. -/
theorem C10_witness :
    get_child_value docPlugged "Green.ChargingInformation.ElectricCurrentLevel.State"
      = JVal.num 3 ∧
    ∃ w, update_ccs2 priorVehicle 0 "UTC" docPlugged = Except.ok w ∧
      w.ev_battery_is_plugged_in = JVal.null := by
  obtain ⟨w, hw⟩ : ∃ w, update_ccs2 priorVehicle 0 "UTC" docPlugged = Except.ok w :=
    ⟨_, rfl⟩
  exact ⟨rfl, w, hw, (C10_theorem priorVehicle 0 "UTC" docPlugged w hw).trans rfl⟩
